import Mathlib

/-!
# Workload conversion (`internal/convert/workloads.go`)

A shallow embedding of `ConvertWorkload`, `WorkloadServiceName` and `buildProbe`.

Conventions of the embedding

* A Go `error` is an `Option String`: `none` is `nil`, `some s` is an error whose
  text is `s`.
* A Go function returning `(value, error)` is a function into a record (or pair)
  holding both components.
* A Go `map` that the code ranges over is the list of its entries in the order
  in which the `range` statement visits them in the run at hand.  Go leaves that
  order unspecified, so two lists that are permutations of each other stand for
  the same map visited in two different orders.
* Go `int` is a 64 bit integer, embedded in `Int`; the conversion `int32(x)` is
  `toInt32`.
* A slice that the code only appends to or copies is a `List`.  The two places
  where the code distinguishes a `nil` slice from a built one (the returned
  manifest list and the header list of a probe) use `Option (List _)`, with
  `none` for `nil`.
* Types and functions that live outside `workloads.go` (the Kubernetes and
  score-go payload types, and the conversion helpers of the other files of the
  package) are parameters: `Types` and `Helpers`.
-/

namespace ScoreK8s

/-! ## Go runtime and library primitives -/

/-- Go `error` value: `none` is `nil`. -/
abbrev GoError := Option String

/-- The function `errors.Wrapf` of `github.com/pkg/errors` with the format already
expanded to `msg`: a `nil` error stays `nil`, any other error is prefixed. -/
def Wrapf (err : GoError) (msg : String) : GoError :=
  match err with
  | none => none
  | some e => some (msg ++ ": " ++ e)

/-- The Go conversion `int32(x)` of a 64 bit `int`: the low 32 bits, read as a
two's complement number. -/
def toInt32 (x : Int) : Int :=
  (x + 2147483648) % 4294967296 - 2147483648

/-- Go map lookup `m[k]` together with its `ok` flag, on the entry list. -/
def mapLookup {α : Type} (m : List (String × α)) (k : String) : Option α :=
  match m with
  | [] => none
  | (k', v) :: rest => if k' = k then some v else mapLookup rest k

/-- The type of `func(string) (string, error)`. -/
abbrev SubstitutionFunction := String → String × GoError

/-! ## Constants of the file -/

def WorkloadKindDeployment : String := "Deployment"

def WorkloadKindStatefulSet : String := "StatefulSet"

def SelectorLabelWorkloadName : String := "score-workload"

/-! ## Payload types owned by other packages -/

/-- Types that `workloads.go` only passes around. -/
structure Types where
  /-- Workload metadata, `map[string]interface{}`. -/
  Metadata : Type
  /-- The `nil` metadata map (the zero value). -/
  nilMetadata : Metadata
  /-- Result of `GetResourceOutputForWorkload`. -/
  ResourceOutputs : Type
  /-- The type of `state.Resources`. -/
  ResourceStates : Type
  /-- The score type `*ContainerResources`. -/
  ContainerResources : Type
  /-- The score type `ContainerVariables`. -/
  ContainerVariables : Type
  /-- The score type `ContainerVolumesElem`. -/
  ContainerVolumesElem : Type
  /-- The score type `ContainerFilesElem`. -/
  ContainerFilesElem : Type
  /-- Kubernetes `ResourceRequirements`. -/
  ResourceRequirements : Type
  /-- Kubernetes `EnvVar`. -/
  EnvVar : Type
  /-- Kubernetes `Volume`. -/
  Volume : Type
  /-- Kubernetes `VolumeMount`. -/
  VolumeMount : Type
  /-- Kubernetes `PersistentVolumeClaim`. -/
  PersistentVolumeClaim : Type
  /-- The config object built for a container file. -/
  ConfigObject : Type

/-! ## score-go input types -/

/-- The score type `HttpProbeHttpHeadersElem`. -/
structure HttpProbeHttpHeadersElem where
  Name : String
  Value : String
deriving DecidableEq, Repr

/-- The score type `HttpProbe`. -/
structure HttpProbe where
  Host : Option String
  HttpHeaders : List HttpProbeHttpHeadersElem
  Path : String
  Port : Int
  Scheme : Option String
deriving DecidableEq, Repr

/-- The score type `ContainerProbe`. -/
structure ContainerProbe where
  HttpGet : HttpProbe
deriving DecidableEq, Repr

/-- The score type `ServicePort`. -/
structure ScoreServicePort where
  Port : Int
  Protocol : Option String
  TargetPort : Option Int
deriving DecidableEq, Repr

/-- The score type `WorkloadService`; `Ports` is a map. -/
structure WorkloadService where
  Ports : List (String × ScoreServicePort)
deriving DecidableEq, Repr

/-- The score type `Resource`, as far as `ConvertWorkload` reads it. -/
structure ScoreResource where
  type : String
  Class : Option String
  Id : Option String
deriving DecidableEq, Repr

/-- The score type `Container`. -/
structure ScoreContainer (T : Types) where
  Image : String
  Command : List String
  Args : List String
  Resources : T.ContainerResources
  Variables : T.ContainerVariables
  Volumes : List T.ContainerVolumesElem
  Files : List T.ContainerFilesElem
  LivenessProbe : Option ContainerProbe
  ReadinessProbe : Option ContainerProbe

/-- The score type `Workload`; `Containers` and `Resources` are maps. -/
structure WorkloadSpec (T : Types) where
  Metadata : T.Metadata
  Containers : List (String × ScoreContainer T)
  Service : Option WorkloadService
  Resources : List (String × ScoreResource)

/-- One entry of `state.Workloads`. -/
structure ScoreWorkloadState (T : Types) where
  Spec : WorkloadSpec T
  File : Option String

/-- The project state `project.State`. -/
structure State (T : Types) where
  Workloads : List (String × ScoreWorkloadState T)
  Resources : T.ResourceStates

/-- Zero value of `ScoreWorkloadState`, what `state.Workloads[name]` yields for a
missing key. -/
def ScoreWorkloadState.zero (T : Types) : ScoreWorkloadState T :=
  { Spec := { Metadata := T.nilMetadata, Containers := [], Service := none, Resources := [] },
    File := none }

/-- The expression `state.Workloads[workloadName]`. -/
def State.workload {T : Types} (state : State T) (workloadName : String) :
    ScoreWorkloadState T :=
  match mapLookup state.Workloads workloadName with
  | some w => w
  | none => ScoreWorkloadState.zero T

/-! ## Kubernetes output types -/

/-- Kubernetes `HTTPHeader`. -/
structure HTTPHeader where
  Name : String
  Value : String
deriving DecidableEq, Repr

/-- Kubernetes `HTTPGetAction`; `Port` is the integer of the `IntOrString`. -/
structure HTTPGetAction where
  Path : String
  Port : Int
  Host : String
  Scheme : String
  HTTPHeaders : Option (List HTTPHeader)
deriving DecidableEq, Repr

/-- Kubernetes `ProbeHandler`. -/
structure ProbeHandler where
  HTTPGet : Option HTTPGetAction
deriving DecidableEq, Repr

/-- Kubernetes `Probe`. -/
structure Probe where
  probeHandler : ProbeHandler
deriving DecidableEq, Repr

/-- Kubernetes `Container`. -/
structure Container (T : Types) where
  Name : String
  Image : String
  Command : List String
  Args : List String
  VolumeMounts : List T.VolumeMount
  Resources : T.ResourceRequirements
  Env : List T.EnvVar
  LivenessProbe : Option Probe
  ReadinessProbe : Option Probe

/-- Kubernetes `ServicePort`; `TargetPort` is the integer of the `IntOrString`. -/
structure ServicePort where
  Name : String
  Port : Int
  TargetPort : Int
  Protocol : String
deriving DecidableEq, Repr

/-- Kubernetes `Service`, with the fields the code sets. -/
structure Service where
  Kind : String
  APIVersion : String
  Name : String
  Annotations : List (String × String)
  Selector : List (String × String)
  ClusterIP : String
  Ports : List ServicePort
deriving DecidableEq, Repr

/-- Kubernetes `LabelSelectorRequirement`. -/
structure LabelSelectorRequirement where
  Key : String
  Operator : String
  Values : List String
deriving DecidableEq, Repr

/-- Kubernetes `LabelSelector`. -/
structure LabelSelector where
  MatchExpressions : List LabelSelectorRequirement
deriving DecidableEq, Repr

/-- Kubernetes `PodSpec`. -/
structure PodSpec (T : Types) where
  Containers : List (Container T)
  Volumes : List T.Volume

/-- Kubernetes `PodTemplateSpec`. -/
structure PodTemplateSpec (T : Types) where
  Labels : List (String × String)
  Spec : PodSpec T

/-- Kubernetes `Deployment`. -/
structure Deployment (T : Types) where
  Kind : String
  APIVersion : String
  Name : String
  Annotations : List (String × String)
  Replicas : Option Int
  Selector : Option LabelSelector
  Template : PodTemplateSpec T

/-- Kubernetes `StatefulSet`. -/
structure StatefulSet (T : Types) where
  Kind : String
  APIVersion : String
  Name : String
  Annotations : List (String × String)
  Replicas : Option Int
  Selector : Option LabelSelector
  ServiceName : String
  Template : PodTemplateSpec T
  VolumeClaimTemplates : List T.PersistentVolumeClaim

/-- An element of the returned `[]machineryMeta.Object`. -/
inductive Manifest (T : Types) where
  | config (c : T.ConfigObject)
  | service (s : Service)
  | deployment (d : Deployment T)
  | statefulSet (s : StatefulSet T)

/-- The pair `([]machineryMeta.Object, error)` returned by `ConvertWorkload`. -/
structure ConvertResult (T : Types) where
  manifests : Option (List (Manifest T))
  err : GoError

/-! ## Helpers defined in other files -/

/-- The four results `(mount, vol, claim, err)` of `convertContainerVolume`. -/
structure VolumeConversion (T : Types) where
  mount : T.VolumeMount
  vol : Option T.Volume
  claim : Option T.PersistentVolumeClaim
  err : GoError

/-- The four results `(mount, cfg, vol, err)` of `convertContainerFile`. -/
structure FileConversion (T : Types) where
  mount : T.VolumeMount
  cfg : Option T.ConfigObject
  vol : Option T.Volume
  err : GoError

/-- The three results of `collapseVolumeMounts`. -/
structure CollapseResult (T : Types) where
  volumes : List T.Volume
  mounts : List T.VolumeMount
  err : GoError

/-- Functions and constants that `workloads.go` calls and that are defined
elsewhere: in the packages `project`, `framework`, `internal` and `strings`,
and in the other files of package `convert`. -/
structure Helpers (T : Types) where
  GetResourceOutputForWorkload : State T → String → T.ResourceOutputs × GoError
  BuildSubstitutionFunction : T.Metadata → T.ResourceOutputs → SubstitutionFunction
  /-- The constant `internal.WorkloadKindAnnotation`. -/
  WorkloadKindAnnotation : String
  /-- The call `internal.FindAnnotation[string]`; `none` is `ok = false`. -/
  FindAnnotation : T.Metadata → String → Option String
  SplitRefParts : String → List String
  NewResourceUid : String → String → String → Option String → Option String → String
  convertContainerResources : T.ContainerResources → T.ResourceRequirements × GoError
  convertContainerVariables :
    T.ContainerVariables → SubstitutionFunction → List T.EnvVar × GoError
  convertContainerVolume :
    Nat → T.ContainerVolumesElem → T.ResourceStates → SubstitutionFunction →
      VolumeConversion T
  convertContainerFile :
    Nat → T.ContainerFilesElem → String → Option String → SubstitutionFunction →
      FileConversion T
  collapseVolumeMounts : List T.Volume → List T.VolumeMount → CollapseResult T
  /-- The function `strings.ToUpper`. -/
  ToUpper : String → String

/-! ## `WorkloadServiceName` and `buildProbe` -/

/-- Source: `WorkloadServiceName`, `fmt.Sprintf("%s-svc", workloadName)`. -/
def WorkloadServiceName (workloadName : String) : String :=
  workloadName ++ "-svc"

/-- The helper `internal.DerefOr`. -/
def DerefOr {α : Type} (p : Option α) (d : α) : α :=
  match p with
  | some v => v
  | none => d

/-- Source: `buildProbe`. -/
def buildProbe (input : HttpProbe) : ProbeHandler :=
  let action : HTTPGetAction :=
    { Path := input.Path
      Port := toInt32 input.Port
      Host := DerefOr input.Host ""
      Scheme := DerefOr input.Scheme ""
      HTTPHeaders := none }
  if input.HttpHeaders.length > 0 then
    let h := input.HttpHeaders.foldl
      (fun (h : List HTTPHeader) header => h ++ [{ Name := header.Name, Value := header.Value }])
      []
    { HTTPGet := some { action with HTTPHeaders := some h } }
  else
    { HTTPGet := some action }

/-! ## `ConvertWorkload` -/

/-- Lines 35-41: the workload kind, or the early `return nil, errors.Wrapf(err, ...)`.
The argument `err` is the variable `err` of `ConvertWorkload` at that point. -/
def selectKind {T : Types} (H : Helpers T) (spec : WorkloadSpec T) (err : GoError) :
    Except GoError String :=
  match H.FindAnnotation spec.Metadata H.WorkloadKindAnnotation with
  | some d =>
    if d ≠ WorkloadKindDeployment ∧ d ≠ WorkloadKindStatefulSet then
      .error (Wrapf err
        ("metadata: annotations: " ++ H.WorkloadKindAnnotation ++ ": unsupported workload kind"))
    else .ok d
  | none => .ok WorkloadKindDeployment

/-- Lines 72-81: the closure `volSubstitutionFunction`. -/
def volSubstitutionFunction {T : Types} (H : Helpers T) (spec : WorkloadSpec T)
    (workloadName : String) (sf : SubstitutionFunction) : SubstitutionFunction :=
  fun ref =>
    match H.SplitRefParts ref with
    | [p0, resName] =>
      if p0 = "resources" then
        match mapLookup spec.Resources resName with
        | some res =>
          (H.NewResourceUid workloadName resName res.type res.Class res.Id, none)
        | none => ("", some ("resource \x27" ++ resName ++ "\x27 does not exist"))
      else sf ref
    | _ => sf ref

/-- The variables that the two inner loops of one container iteration update. -/
structure ContainerAcc (T : Types) where
  manifests : List (Manifest T)
  volumeClaimTemplates : List T.PersistentVolumeClaim
  containerVolumes : List T.Volume
  containerVolumeMounts : List T.VolumeMount

/-- Lines 82-96: the loop over `container.Volumes`, from index `i` on.  The result
`.error e` stands for `return nil, e`. -/
def volumesLoop {T : Types} (H : Helpers T) (resources : T.ResourceStates) (kind : String)
    (containerName : String) (volSub : SubstitutionFunction) :
    Nat → List T.ContainerVolumesElem → ContainerAcc T → Except GoError (ContainerAcc T)
  | _, [], acc => .ok acc
  | i, volume :: rest, acc =>
    let r := H.convertContainerVolume i volume resources volSub
    if r.err ≠ none then
      .error (Wrapf r.err
        ("containers." ++ containerName ++ ".volumes." ++ toString i ++ ": failed to convert"))
    else
      let acc1 := { acc with containerVolumeMounts := acc.containerVolumeMounts ++ [r.mount] }
      match r.claim with
      | some claim =>
        if kind ≠ WorkloadKindStatefulSet then
          .error (Wrapf r.err
            ("containers." ++ containerName ++ ".volumes." ++ toString i ++
              ": volume claims can only be set on stateful sets"))
        else
          volumesLoop H resources kind containerName volSub (i + 1) rest
            { acc1 with volumeClaimTemplates := acc1.volumeClaimTemplates ++ [claim] }
      | none =>
        match r.vol with
        | some vol =>
          volumesLoop H resources kind containerName volSub (i + 1) rest
            { acc1 with containerVolumes := acc1.containerVolumes ++ [vol] }
        | none => volumesLoop H resources kind containerName volSub (i + 1) rest acc1

/-- Lines 98-110: the loop over `container.Files`, from index `i` on. -/
def filesLoop {T : Types} (H : Helpers T) (file : Option String) (cfgNames : String)
    (containerName : String) (sf : SubstitutionFunction) :
    Nat → List T.ContainerFilesElem → ContainerAcc T → Except GoError (ContainerAcc T)
  | _, [], acc => .ok acc
  | i, f :: rest, acc =>
    let r := H.convertContainerFile i f cfgNames file sf
    if r.err ≠ none then
      .error (Wrapf r.err
        ("containers." ++ containerName ++ ".files." ++ toString i ++ ": failed to convert"))
    else
      let acc1 := { acc with containerVolumeMounts := acc.containerVolumeMounts ++ [r.mount] }
      let acc2 :=
        match r.cfg with
        | some cfg => { acc1 with manifests := acc1.manifests ++ [Manifest.config cfg] }
        | none => acc1
      let acc3 :=
        match r.vol with
        | some vol => { acc2 with containerVolumes := acc2.containerVolumes ++ [vol] }
        | none => acc2
      filesLoop H file cfgNames containerName sf (i + 1) rest acc3

/-- The variables that the loop over the containers updates. -/
structure LoopState (T : Types) where
  manifests : List (Manifest T)
  volumes : List T.Volume
  volumeClaimTemplates : List T.PersistentVolumeClaim
  containers : List (Container T)

/-- Lines 51-127: the body of the loop over `spec.Containers`. -/
def containerStep {T : Types} (H : Helpers T) (state : State T) (workloadName : String)
    (spec : WorkloadSpec T) (sf : SubstitutionFunction) (kind : String) (st : LoopState T)
    (containerName : String) (container : ScoreContainer T) :
    Except GoError (LoopState T) :=
  let res := H.convertContainerResources container.Resources
  if res.2 ≠ none then
    .error (Wrapf res.2 ("containers." ++ containerName ++ ".resources: failed to convert"))
  else
    let env := H.convertContainerVariables container.Variables sf
    if env.2 ≠ none then
      .error (Wrapf env.2 ("containers." ++ containerName ++ ".variables: failed to convert"))
    else
      let volSub := volSubstitutionFunction H spec workloadName sf
      match volumesLoop H state.Resources kind containerName volSub 0 container.Volumes
          { manifests := st.manifests
            volumeClaimTemplates := st.volumeClaimTemplates
            containerVolumes := []
            containerVolumeMounts := [] } with
      | .error e => .error e
      | .ok acc =>
        match filesLoop H (state.workload workloadName).File
            (workloadName ++ "-" ++ containerName ++ "-") containerName sf 0
            container.Files acc with
        | .error e => .error e
        | .ok acc =>
          let col := H.collapseVolumeMounts acc.containerVolumes acc.containerVolumeMounts
          if col.err ≠ none then
            .error (Wrapf col.err
              ("containers." ++ containerName ++
                ".volumes: failed to combine projected volumes"))
          else
            let c : Container T :=
              { Name := containerName
                Image := container.Image
                Command := container.Command
                Args := container.Args
                VolumeMounts := col.mounts
                Resources := res.1
                Env := env.1
                LivenessProbe :=
                  match container.LivenessProbe with
                  | some p => some { probeHandler := buildProbe p.HttpGet }
                  | none => none
                ReadinessProbe :=
                  match container.ReadinessProbe with
                  | some p => some { probeHandler := buildProbe p.HttpGet }
                  | none => none }
            .ok { manifests := acc.manifests
                  volumes := st.volumes ++ col.volumes
                  volumeClaimTemplates := acc.volumeClaimTemplates
                  containers := st.containers ++ [c] }

/-- Lines 50-128: the loop over `spec.Containers`, visited in the order of the
list. -/
def containersLoop {T : Types} (H : Helpers T) (state : State T) (workloadName : String)
    (spec : WorkloadSpec T) (sf : SubstitutionFunction) (kind : String) :
    List (String × ScoreContainer T) → LoopState T → Except GoError (LoopState T)
  | [], st => .ok st
  | (containerName, container) :: rest, st =>
    match containerStep H state workloadName spec sf kind st containerName container with
    | .error e => .error e
    | .ok st1 => containersLoop H state workloadName spec sf kind rest st1

/-- Lines 133-146: one iteration of the loop over `spec.Service.Ports`. -/
def servicePort {T : Types} (H : Helpers T) (portName : String) (port : ScoreServicePort) :
    ServicePort :=
  let proto :=
    match port.Protocol with
    | some p => if p ≠ "" then H.ToUpper p else "TCP"
    | none => "TCP"
  let targetPort :=
    match port.TargetPort with
    | some t => if t > 0 then t else port.Port
    | none => port.Port
  { Name := portName
    Port := toInt32 port.Port
    TargetPort := toInt32 targetPort
    Protocol := proto }

/-- Lines 131-147: the loop building `portList`, the ports visited in the order of
the list. -/
def servicePortList {T : Types} (H : Helpers T) (ports : List (String × ScoreServicePort)) :
    List ServicePort :=
  ports.foldl
    (fun (portList : List ServicePort) np => portList ++ [servicePort H np.1 np.2]) []

/-- Lines 148-160: the `Service` literal of the network service. -/
def networkService {T : Types} (H : Helpers T) (workloadName : String)
    (service : WorkloadService) : Service :=
  { Kind := "Service"
    APIVersion := "v1"
    Name := WorkloadServiceName workloadName
    Annotations := []
    Selector := [(SelectorLabelWorkloadName, workloadName)]
    ClusterIP := ""
    Ports := servicePortList H service.Ports }

/-- Lines 130-161: the network service, appended to `manifests` when the workload
declares a service with at least one port. -/
def appendNetworkService {T : Types} (H : Helpers T) (workloadName : String)
    (spec : WorkloadSpec T) (manifests : List (Manifest T)) : List (Manifest T) :=
  match spec.Service with
  | some service =>
    if service.Ports.length > 0 then
      manifests ++ [Manifest.service (networkService H workloadName service)]
    else manifests
  | none => manifests

/-- The selector built at lines 173-177 and 218-222. -/
def workloadSelector (workloadName : String) : LabelSelector :=
  { MatchExpressions :=
      [{ Key := SelectorLabelWorkloadName, Operator := "In", Values := [workloadName] }] }

/-- The pod template built at lines 178-188 and 224-234. -/
def podTemplate {T : Types} (workloadName : String) (containers : List (Container T))
    (volumes : List T.Volume) : PodTemplateSpec T :=
  { Labels := [(SelectorLabelWorkloadName, workloadName)]
    Spec := { Containers := containers, Volumes := volumes } }

/-- Lines 165-190: the `Deployment` literal. -/
def deployment {T : Types} (workloadName : String) (containers : List (Container T))
    (volumes : List T.Volume) : Deployment T :=
  { Kind := WorkloadKindDeployment
    APIVersion := "apps/v1"
    Name := workloadName
    Annotations := []
    Replicas := some 1
    Selector := some (workloadSelector workloadName)
    Template := podTemplate workloadName containers volumes }

/-- Line 194: the local `headlessServiceName`. -/
def headlessServiceName (workloadName : String) : String :=
  workloadName ++ "-headless-svc"

/-- Lines 195-208: the `Service` literal of the headless service. -/
def headlessService (workloadName : String) : Service :=
  { Kind := "Service"
    APIVersion := "v1"
    Name := headlessServiceName workloadName
    Annotations := []
    Selector := [(SelectorLabelWorkloadName, workloadName)]
    ClusterIP := "None"
    Ports := [{ Name := "default", Port := 99, TargetPort := 99, Protocol := "" }] }

/-- Lines 210-238: the `StatefulSet` literal. -/
def statefulSet {T : Types} (workloadName : String) (containers : List (Container T))
    (volumes : List T.Volume) (volumeClaimTemplates : List T.PersistentVolumeClaim) :
    StatefulSet T :=
  { Kind := WorkloadKindStatefulSet
    APIVersion := "apps/v1"
    Name := workloadName
    Annotations := []
    Replicas := some 1
    Selector := some (workloadSelector workloadName)
    ServiceName := headlessServiceName workloadName
    Template := podTemplate workloadName containers volumes
    VolumeClaimTemplates := volumeClaimTemplates }

/-- Lines 163-239: the `switch kind` statement. -/
def appendController {T : Types} (workloadName : String) (kind : String)
    (containers : List (Container T)) (volumes : List T.Volume)
    (volumeClaimTemplates : List T.PersistentVolumeClaim) (manifests : List (Manifest T)) :
    List (Manifest T) :=
  if kind = WorkloadKindDeployment then
    manifests ++ [Manifest.deployment (deployment workloadName containers volumes)]
  else if kind = WorkloadKindStatefulSet then
    let manifests := manifests ++ [Manifest.service (headlessService workloadName)]
    manifests ++
      [Manifest.statefulSet (statefulSet workloadName containers volumes volumeClaimTemplates)]
  else manifests

/-- Source: `ConvertWorkload`. -/
def ConvertWorkload {T : Types} (H : Helpers T) (state : State T) (workloadName : String) :
    ConvertResult T :=
  let out := H.GetResourceOutputForWorkload state workloadName
  let err := out.2
  if err ≠ none then
    { manifests := none, err := Wrapf err "failed to generate outputs" }
  else
    let sf := H.BuildSubstitutionFunction (state.workload workloadName).Spec.Metadata out.1
    let spec := (state.workload workloadName).Spec
    match selectKind H spec err with
    | .error e => { manifests := none, err := e }
    | .ok kind =>
      match containersLoop H state workloadName spec sf kind spec.Containers
          { manifests := [], volumes := [], volumeClaimTemplates := [], containers := [] } with
      | .error e => { manifests := none, err := e }
      | .ok st =>
        let manifests := appendNetworkService H workloadName spec st.manifests
        { manifests :=
            some (appendController workloadName kind st.containers st.volumes
              st.volumeClaimTemplates manifests)
          err := none }

/-! ## The helper calls made for one container

The lists below name the values that the helpers return for the volumes and
files of a container; the claims are stated in terms of them. -/

/-- The results of the calls `convertContainerVolume(i, volume, ...)` of the loop
at lines 82-96, for the indices from `i` on. -/
def volumeConversions {T : Types} (H : Helpers T) (resources : T.ResourceStates)
    (volSub : SubstitutionFunction) :
    Nat → List T.ContainerVolumesElem → List (VolumeConversion T)
  | _, [] => []
  | i, volume :: rest =>
    H.convertContainerVolume i volume resources volSub ::
      volumeConversions H resources volSub (i + 1) rest

/-- The results of the calls `convertContainerFile(i, f, ...)` of the loop at
lines 98-110, for the indices from `i` on. -/
def fileConversions {T : Types} (H : Helpers T) (file : Option String) (cfgNames : String)
    (sf : SubstitutionFunction) :
    Nat → List T.ContainerFilesElem → List (FileConversion T)
  | _, [] => []
  | i, f :: rest =>
    H.convertContainerFile i f cfgNames file sf :: fileConversions H file cfgNames sf (i + 1) rest

/-- The pod volume that a volume conversion contributes: none when it produced a
claim. -/
def VolumeConversion.podVolume {T : Types} (r : VolumeConversion T) : Option T.Volume :=
  match r.claim with
  | some _ => none
  | none => r.vol

/-- The inputs and the result of the call of `collapseVolumeMounts` at line 113,
from the conversions of the volumes and of the files of a container. -/
def collapseCall {T : Types} (H : Helpers T) (vr : List (VolumeConversion T))
    (fr : List (FileConversion T)) : CollapseResult T :=
  H.collapseVolumeMounts
    (vr.filterMap VolumeConversion.podVolume ++ fr.filterMap (fun r => r.vol))
    (vr.map (fun r => r.mount) ++ fr.map (fun r => r.mount))

/-- The container value `c` appended at line 127. -/
def assembledContainer {T : Types} (H : Helpers T) (sf : SubstitutionFunction)
    (containerName : String) (container : ScoreContainer T) (col : CollapseResult T) :
    Container T :=
  { Name := containerName
    Image := container.Image
    Command := container.Command
    Args := container.Args
    VolumeMounts := col.mounts
    Resources := (H.convertContainerResources container.Resources).1
    Env := (H.convertContainerVariables container.Variables sf).1
    LivenessProbe :=
      match container.LivenessProbe with
      | some p => some { probeHandler := buildProbe p.HttpGet }
      | none => none
    ReadinessProbe :=
      match container.ReadinessProbe with
      | some p => some { probeHandler := buildProbe p.HttpGet }
      | none => none }

/-! ## One container iteration -/

/-- The volume conversions of one container of the run. -/
def containerVolumeConversions {T : Types} (H : Helpers T) (state : State T)
    (workloadName : String) (spec : WorkloadSpec T) (sf : SubstitutionFunction)
    (container : ScoreContainer T) : List (VolumeConversion T) :=
  volumeConversions H state.Resources (volSubstitutionFunction H spec workloadName sf) 0
    container.Volumes

/-- The file conversions of one container of the run. -/
def containerFileConversions {T : Types} (H : Helpers T) (state : State T)
    (workloadName : String) (sf : SubstitutionFunction) (containerName : String)
    (container : ScoreContainer T) : List (FileConversion T) :=
  fileConversions H (state.workload workloadName).File
    (workloadName ++ "-" ++ containerName ++ "-") sf 0 container.Files

/-- The call of `collapseVolumeMounts` for one container of the run. -/
def containerCollapse {T : Types} (H : Helpers T) (state : State T)
    (workloadName : String) (spec : WorkloadSpec T) (sf : SubstitutionFunction)
    (nc : String × ScoreContainer T) : CollapseResult T :=
  collapseCall H (containerVolumeConversions H state workloadName spec sf nc.2)
    (containerFileConversions H state workloadName sf nc.1 nc.2)

/-- Every helper called for the container returns a `nil` error. -/
def ContainerHelpersOk {T : Types} (H : Helpers T) (state : State T)
    (workloadName : String) (spec : WorkloadSpec T) (sf : SubstitutionFunction)
    (nc : String × ScoreContainer T) : Prop :=
  (H.convertContainerResources nc.2.Resources).2 = none ∧
  (H.convertContainerVariables nc.2.Variables sf).2 = none ∧
  (∀ r ∈ containerVolumeConversions H state workloadName spec sf nc.2, r.err = none) ∧
  (∀ r ∈ containerFileConversions H state workloadName sf nc.1 nc.2, r.err = none) ∧
  (containerCollapse H state workloadName spec sf nc).err = none

/-- No volume of the container converts to a claim. -/
def ContainerClaimFree {T : Types} (H : Helpers T) (state : State T)
    (workloadName : String) (spec : WorkloadSpec T) (sf : SubstitutionFunction)
    (nc : String × ScoreContainer T) : Prop :=
  ∀ r ∈ containerVolumeConversions H state workloadName spec sf nc.2, r.claim = none

/-- The loop state after a completed iteration for the container `nc`. -/
def stepResult {T : Types} (H : Helpers T) (state : State T)
    (workloadName : String) (spec : WorkloadSpec T) (sf : SubstitutionFunction)
    (st : LoopState T) (nc : String × ScoreContainer T) : LoopState T :=
  { manifests := st.manifests ++
      ((containerFileConversions H state workloadName sf nc.1 nc.2).filterMap
        (fun r => r.cfg)).map Manifest.config
    volumes := st.volumes ++ (containerCollapse H state workloadName spec sf nc).volumes
    volumeClaimTemplates := st.volumeClaimTemplates ++
      (containerVolumeConversions H state workloadName spec sf nc.2).filterMap
        (fun r => r.claim)
    containers := st.containers ++
      [assembledContainer H sf nc.1 nc.2 (containerCollapse H state workloadName spec sf nc)] }

/-! ## The run of `ConvertWorkload` -/

/-- The value `spec` of the run. -/
def runSpec {T : Types} (state : State T) (workloadName : String) : WorkloadSpec T :=
  (state.workload workloadName).Spec

/-- The value `sf` of the run. -/
def runSf {T : Types} (H : Helpers T) (state : State T) (workloadName : String) :
    SubstitutionFunction :=
  H.BuildSubstitutionFunction (runSpec state workloadName).Metadata
    (H.GetResourceOutputForWorkload state workloadName).1

/-- The workload-kind annotation of the workload, if its metadata carries one. -/
def kindAnnotation {T : Types} (H : Helpers T) (state : State T) (workloadName : String) :
    Option String :=
  H.FindAnnotation (runSpec state workloadName).Metadata H.WorkloadKindAnnotation

/-- The stateless kind: no annotation, or the annotation `Deployment`. -/
def IsStateless {T : Types} (H : Helpers T) (state : State T) (workloadName : String) : Prop :=
  kindAnnotation H state workloadName = none ∨
    kindAnnotation H state workloadName = some WorkloadKindDeployment

/-- The stateful kind: the annotation `StatefulSet`. -/
def IsStateful {T : Types} (H : Helpers T) (state : State T) (workloadName : String) : Prop :=
  kindAnnotation H state workloadName = some WorkloadKindStatefulSet

/-- The containers of the workload, in the order the run visits them. -/
def runContainers {T : Types} (state : State T) (workloadName : String) :
    List (String × ScoreContainer T) :=
  (runSpec state workloadName).Containers

/-- Every helper of the run returns a `nil` error. -/
def AllHelpersOk {T : Types} (H : Helpers T) (state : State T) (workloadName : String) : Prop :=
  (H.GetResourceOutputForWorkload state workloadName).2 = none ∧
  ∀ nc ∈ runContainers state workloadName,
    ContainerHelpersOk H state workloadName (runSpec state workloadName)
      (runSf H state workloadName) nc

/-- The claims produced by the volume mounts of the run: container by container in
loop order, and within a container in declaration order. -/
def runClaims {T : Types} (H : Helpers T) (state : State T) (workloadName : String) :
    List T.PersistentVolumeClaim :=
  (runContainers state workloadName).flatMap (fun nc =>
    (containerVolumeConversions H state workloadName (runSpec state workloadName)
      (runSf H state workloadName) nc.2).filterMap (fun r => r.claim))

/-- The config objects produced by the files of the run, in the same order. -/
def runConfigs {T : Types} (H : Helpers T) (state : State T) (workloadName : String) :
    List T.ConfigObject :=
  (runContainers state workloadName).flatMap (fun nc =>
    (containerFileConversions H state workloadName (runSf H state workloadName) nc.1
      nc.2).filterMap (fun r => r.cfg))

/-- The assembled containers of the run, in loop order. -/
def runAssembled {T : Types} (H : Helpers T) (state : State T) (workloadName : String) :
    List (Container T) :=
  (runContainers state workloadName).map (fun nc =>
    assembledContainer H (runSf H state workloadName) nc.1 nc.2
      (containerCollapse H state workloadName (runSpec state workloadName)
        (runSf H state workloadName) nc))

/-- The pod-level volumes of the run: the collapsed volumes of the containers. -/
def runVolumes {T : Types} (H : Helpers T) (state : State T) (workloadName : String) :
    List T.Volume :=
  (runContainers state workloadName).flatMap (fun nc =>
    (containerCollapse H state workloadName (runSpec state workloadName)
      (runSf H state workloadName) nc).volumes)

/-- The workload declares a service with at least one port. -/
def DeclaresPort {T : Types} (state : State T) (workloadName : String) : Prop :=
  ∃ service, (runSpec state workloadName).Service = some service ∧ 0 < service.Ports.length

/-- The network service of the run, when the workload declares a port. -/
def runNetworkService {T : Types} (H : Helpers T) (state : State T) (workloadName : String) :
    Option Service :=
  match (runSpec state workloadName).Service with
  | some service =>
    if service.Ports.length > 0 then some (networkService H workloadName service) else none
  | none => none

/-- The initial state of the container loop. -/
def loopInit (T : Types) : LoopState T :=
  { manifests := [], volumes := [], volumeClaimTemplates := [], containers := [] }

/-- The state of the container loop after all containers of the run. -/
def runFinal {T : Types} (H : Helpers T) (state : State T) (workloadName : String) :
    LoopState T :=
  (runContainers state workloadName).foldl
    (stepResult H state workloadName (runSpec state workloadName) (runSf H state workloadName))
    (loopInit T)

/-- The manifest list of a completed run of the stateful kind. -/
def statefulManifests {T : Types} (H : Helpers T) (state : State T) (workloadName : String) :
    List (Manifest T) :=
  (runConfigs H state workloadName).map Manifest.config ++
    (runNetworkService H state workloadName).toList.map Manifest.service ++
    [Manifest.service (headlessService workloadName),
     Manifest.statefulSet (statefulSet workloadName (runAssembled H state workloadName)
       (runVolumes H state workloadName) (runClaims H state workloadName))]

/-- The manifest list of a completed run of the stateless kind. -/
def statelessManifests {T : Types} (H : Helpers T) (state : State T) (workloadName : String) :
    List (Manifest T) :=
  (runConfigs H state workloadName).map Manifest.config ++
    (runNetworkService H state workloadName).toList.map Manifest.service ++
    [Manifest.deployment (deployment workloadName (runAssembled H state workloadName)
       (runVolumes H state workloadName))]

/-- Every volume of every container of the run converts to something other than a
claim. -/
def RunClaimFree {T : Types} (H : Helpers T) (state : State T) (workloadName : String) : Prop :=
  ∀ nc ∈ runContainers state workloadName,
    ContainerClaimFree H state workloadName (runSpec state workloadName)
      (runSf H state workloadName) nc

/-! ## Observations on manifests -/

/-- The manifest is a workload controller object: a Deployment or a StatefulSet. -/
def Manifest.isController {T : Types} : Manifest T → Bool
  | .deployment _ => true
  | .statefulSet _ => true
  | _ => false

/-- The manifest is a Service with the given name. -/
def Manifest.isServiceNamed {T : Types} (name : String) : Manifest T → Bool
  | .service s => s.Name == name
  | _ => false

/-- The names of the containers of the pod template of a controller object. -/
def Manifest.containerNames {T : Types} : Manifest T → List String
  | .deployment d => d.Template.Spec.Containers.map (fun c => c.Name)
  | .statefulSet s => s.Template.Spec.Containers.map (fun c => c.Name)
  | _ => []

/-- The names of the port entries of a Service. -/
def Manifest.portNames {T : Types} : Manifest T → List String
  | .service s => s.Ports.map (fun e => e.Name)
  | _ => []

/-- The container names of the controller objects of a result, in list order. -/
def ConvertResult.containerNames {T : Types} (r : ConvertResult T) : List String :=
  match r.manifests with
  | some ms => ms.flatMap Manifest.containerNames
  | none => []

/-- The port names of the services of a result, in list order. -/
def ConvertResult.portNames {T : Types} (r : ConvertResult T) : List String :=
  match r.manifests with
  | some ms => ms.flatMap Manifest.portNames
  | none => []

/-- The pod template of a controller object. -/
def Manifest.template {T : Types} : Manifest T → Option (PodTemplateSpec T)
  | .deployment d => some d.Template
  | .statefulSet s => some s.Template
  | _ => none

/-- The label selector of a controller object. -/
def Manifest.selector {T : Types} : Manifest T → Option LabelSelector
  | .deployment d => d.Selector
  | .statefulSet s => s.Selector
  | _ => none

/-! ## Kubernetes label selection

The meaning that Kubernetes gives to the selectors the code writes; it is not part
of `workloads.go`. -/

/-- A Service selector (a label map) selects the pods that carry every entry of
the map among their labels. -/
def selectorMatches (selector labels : List (String × String)) : Bool :=
  selector.all (fun kv => mapLookup labels kv.1 == some kv.2)

/-- A label selector requirement holds of a label set according to its operator:
`In`, `NotIn`, `Exists` or `DoesNotExist`. -/
def requirementMatches (r : LabelSelectorRequirement) (labels : List (String × String)) : Bool :=
  if r.Operator = "In" then
    match mapLookup labels r.Key with
    | some v => r.Values.contains v
    | none => false
  else if r.Operator = "NotIn" then
    match mapLookup labels r.Key with
    | some v => !(r.Values.contains v)
    | none => true
  else if r.Operator = "Exists" then (mapLookup labels r.Key).isSome
  else if r.Operator = "DoesNotExist" then !(mapLookup labels r.Key).isSome
  else false

/-- A label selector selects the label sets that satisfy all its requirements. -/
def labelSelectorMatches (s : LabelSelector) (labels : List (String × String)) : Bool :=
  s.MatchExpressions.all (fun r => requirementMatches r labels)

/-! ## Two runs on the same input

Two values of `State` stand for the same Go state when they differ only in the
order in which the run ranges over the container mapping and the port mapping.
The resource mapping of the workload is only indexed, never ranged over. -/

/-- The declared services of two runs hold the same ports, possibly visited in
different orders. -/
def SamePorts : Option WorkloadService → Option WorkloadService → Prop
  | none, none => True
  | some s1, some s2 => s1.Ports.Perm s2.Ports
  | _, _ => False

/-- The two states hold the same input for the workload: the same resources, file,
metadata, resource mapping and resource outputs, and the same container mapping and
port mapping, possibly visited in different orders. -/
def SameInput {T : Types} (H : Helpers T) (st1 st2 : State T) (workloadName : String) : Prop :=
  st1.Resources = st2.Resources ∧
  (st1.workload workloadName).File = (st2.workload workloadName).File ∧
  (runSpec st1 workloadName).Metadata = (runSpec st2 workloadName).Metadata ∧
  (runSpec st1 workloadName).Resources = (runSpec st2 workloadName).Resources ∧
  (runSpec st1 workloadName).Containers.Perm (runSpec st2 workloadName).Containers ∧
  SamePorts (runSpec st1 workloadName).Service (runSpec st2 workloadName).Service ∧
  H.GetResourceOutputForWorkload st1 workloadName =
    H.GetResourceOutputForWorkload st2 workloadName

/-- Two Services are equal except for the order of their port entries. -/
def Service.sameUpToOrder (a b : Service) : Prop :=
  a.Kind = b.Kind ∧ a.APIVersion = b.APIVersion ∧ a.Name = b.Name ∧
  a.Annotations = b.Annotations ∧ a.Selector = b.Selector ∧ a.ClusterIP = b.ClusterIP ∧
  a.Ports.Perm b.Ports

/-- Two pod templates are equal except for the order of their containers and of
their volumes. -/
def PodTemplateSpec.sameUpToOrder {T : Types} (a b : PodTemplateSpec T) : Prop :=
  a.Labels = b.Labels ∧ a.Spec.Containers.Perm b.Spec.Containers ∧
  a.Spec.Volumes.Perm b.Spec.Volumes

/-- Two Deployments are equal except for the order inside their pod templates. -/
def Deployment.sameUpToOrder {T : Types} (a b : Deployment T) : Prop :=
  a.Kind = b.Kind ∧ a.APIVersion = b.APIVersion ∧ a.Name = b.Name ∧
  a.Annotations = b.Annotations ∧ a.Replicas = b.Replicas ∧ a.Selector = b.Selector ∧
  a.Template.sameUpToOrder b.Template

/-- Two StatefulSets are equal except for the order inside their pod templates and
of their claim templates. -/
def StatefulSet.sameUpToOrder {T : Types} (a b : StatefulSet T) : Prop :=
  a.Kind = b.Kind ∧ a.APIVersion = b.APIVersion ∧ a.Name = b.Name ∧
  a.Annotations = b.Annotations ∧ a.Replicas = b.Replicas ∧ a.Selector = b.Selector ∧
  a.ServiceName = b.ServiceName ∧ a.Template.sameUpToOrder b.Template ∧
  a.VolumeClaimTemplates.Perm b.VolumeClaimTemplates

/-- Two manifests are of the same sort and equal except for the order of the lists
they hold. -/
def Manifest.sameUpToOrder {T : Types} : Manifest T → Manifest T → Prop
  | .config a, .config b => a = b
  | .service a, .service b => a.sameUpToOrder b
  | .deployment a, .deployment b => a.sameUpToOrder b
  | .statefulSet a, .statefulSet b => a.sameUpToOrder b
  | _, _ => False

/-! ## A concrete instance

Small payload types and helpers on which the definitions can be evaluated. -/

/-- Payload types of the instance: metadata is the kind annotation, if any; a
volume is a target path with a flag asking for a claim; a file is a target path;
the Kubernetes payloads are strings. -/
def demoTypes : Types :=
  { Metadata := Option String
    nilMetadata := none
    ResourceOutputs := Unit
    ResourceStates := Unit
    ContainerResources := Unit
    ContainerVariables := List (String × String)
    ContainerVolumesElem := String × Bool
    ContainerFilesElem := String
    ResourceRequirements := Unit
    EnvVar := String × String
    Volume := String
    VolumeMount := String
    PersistentVolumeClaim := String
    ConfigObject := String }

/-- Helpers of the instance.  Resource outputs exist for the workloads of the
state; a flagged volume converts to a claim, any other one to a volume; a file
converts to a config object, a volume and a mount; collapsing changes nothing. -/
def demoHelpers : Helpers demoTypes :=
  { GetResourceOutputForWorkload := fun state workloadName =>
      match mapLookup state.Workloads workloadName with
      | some _ => ((), none)
      | none => ((), some "workload does not exist")
    BuildSubstitutionFunction := fun _ _ ref => (ref, none)
    WorkloadKindAnnotation := "k8s.score.dev/kind"
    FindAnnotation := fun (m : Option String) _ => m
    SplitRefParts := fun ref => [ref]
    NewResourceUid := fun w r t _ _ => t ++ "#" ++ w ++ "." ++ r
    convertContainerResources := fun _ => ((), none)
    convertContainerVariables := fun (vars : List (String × String)) _ => (vars, none)
    convertContainerVolume := fun i (v : String × Bool) _ _ =>
      if v.2 then
        { mount := v.1, vol := none, claim := some ("claim-" ++ toString i), err := none }
      else
        { mount := v.1, vol := some ("vol-" ++ toString i), claim := none, err := none }
    convertContainerFile := fun i (f : String) cfgNames _ _ =>
      { mount := f, cfg := some (cfgNames ++ toString i), vol := some ("file-" ++ toString i),
        err := none }
    collapseVolumeMounts := fun vs ms => { volumes := vs, mounts := ms, err := none }
    ToUpper := String.toUpper }

/-- The helpers of the instance, except that a file with the empty target path
fails to convert. -/
def demoHelpersStrict : Helpers demoTypes :=
  { demoHelpers with
    convertContainerFile := fun i (f : String) cfgNames _ _ =>
      if f = "" then
        { mount := f, cfg := none, vol := none, err := some "empty target" }
      else
        { mount := f, cfg := some (cfgNames ++ toString i),
          vol := some ("file-" ++ toString i), err := none } }

/-- A container of the instance with the given volumes and files. -/
def demoContainer (image : String) (volumes : List (String × Bool)) (files : List String) :
    ScoreContainer demoTypes :=
  { Image := image
    Command := []
    Args := []
    Resources := ()
    Variables := []
    Volumes := volumes
    Files := files
    LivenessProbe := none
    ReadinessProbe := none }

/-- A state of the instance holding the single workload `api`. -/
def demoState (kind : Option String) (containers : List (String × ScoreContainer demoTypes))
    (service : Option WorkloadService) : State demoTypes :=
  { Workloads :=
      [("api", { Spec := { Metadata := kind, Containers := containers, Service := service,
                           Resources := [] },
                 File := none })]
    Resources := () }

/-- A service declaring the single port `http`. -/
def demoService (port : Int) (targetPort : Option Int) : WorkloadService :=
  { Ports := [("http", { Port := port, Protocol := none, TargetPort := targetPort })] }

/-- The workload `api` without annotation, with the containers `b` and `a` visited
in that order and the port `http` 8080. -/
def demoOrderState : State demoTypes :=
  demoState none [("b", demoContainer "b:1" [] []), ("a", demoContainer "a:1" [] [])]
    (some (demoService 8080 none))

/-- The workload of `demoOrderState` with the containers visited in the order `a`,
`b`. -/
def demoOrderStateSwapped : State demoTypes :=
  demoState none [("a", demoContainer "a:1" [] []), ("b", demoContainer "b:1" [] [])]
    (some (demoService 8080 none))

/-- The workload `api` of kind `StatefulSet` whose container `web` mounts a volume
with a claim and a volume without, and has one file; it declares the port `http`
8080. -/
def demoStatefulState : State demoTypes :=
  demoState (some "StatefulSet")
    [("web", demoContainer "app:1.0" [("/data", true), ("/cache", false)] ["/etc/cfg/a.conf"])]
    (some (demoService 8080 none))

/-! ## Lemmas on the inner loops -/

theorem Wrapf_none (msg : String) : Wrapf none msg = none := rfl

theorem Wrapf_eq_none_iff (err : GoError) (msg : String) : Wrapf err msg = none ↔ err = none := by
  cases err <;> simp [Wrapf]

/-- A completed run of the volume loop: what it appended, and what it met. -/
theorem volumesLoop_ok {T : Types} (H : Helpers T) (resources : T.ResourceStates)
    (kind containerName : String) (volSub : SubstitutionFunction)
    (vs : List T.ContainerVolumesElem) :
    ∀ (i : Nat) (acc acc' : ContainerAcc T),
      volumesLoop H resources kind containerName volSub i vs acc = .ok acc' →
      acc'.manifests = acc.manifests ∧
      acc'.volumeClaimTemplates = acc.volumeClaimTemplates ++
        (volumeConversions H resources volSub i vs).filterMap (fun r => r.claim) ∧
      acc'.containerVolumes = acc.containerVolumes ++
        (volumeConversions H resources volSub i vs).filterMap VolumeConversion.podVolume ∧
      acc'.containerVolumeMounts = acc.containerVolumeMounts ++
        (volumeConversions H resources volSub i vs).map (fun r => r.mount) ∧
      (∀ r ∈ volumeConversions H resources volSub i vs, r.err = none) ∧
      (kind ≠ WorkloadKindStatefulSet →
        ∀ r ∈ volumeConversions H resources volSub i vs, r.claim = none) := by
  induction vs with
  | nil =>
    intro i acc acc' h
    simp only [volumesLoop, Except.ok.injEq] at h
    subst h
    simp [volumeConversions]
  | cons v rest ih =>
    intro i acc acc' h
    simp only [volumesLoop] at h
    by_cases herr : (H.convertContainerVolume i v resources volSub).err = none
    · simp only [herr, ne_eq, not_true_eq_false, if_false] at h
      cases hc : (H.convertContainerVolume i v resources volSub).claim with
      | some c =>
        simp only [hc] at h
        by_cases hk : kind = WorkloadKindStatefulSet
        · simp only [hk, ne_eq, not_true_eq_false, if_false] at h
          have := ih (i + 1) _ acc' (by simpa [hk] using h)
          obtain ⟨h1, h2, h3, h4, h5, h6⟩ := this
          refine ⟨by simpa using h1, ?_, ?_, ?_, ?_, ?_⟩
          · simp [volumeConversions, h2, hc]
          · simp [volumeConversions, h3, VolumeConversion.podVolume, hc]
          · simp [volumeConversions, h4]
          · intro r hr
            simp only [volumeConversions, List.mem_cons] at hr
            rcases hr with rfl | hr
            · exact herr
            · exact h5 r hr
          · intro hk'
            exact absurd hk hk'
        · simp [hk] at h
      | none =>
        simp only [hc] at h
        cases hv : (H.convertContainerVolume i v resources volSub).vol with
        | some vol =>
          simp only [hv] at h
          obtain ⟨h1, h2, h3, h4, h5, h6⟩ := ih (i + 1) _ acc' h
          refine ⟨by simpa using h1, ?_, ?_, ?_, ?_, ?_⟩
          · simp [volumeConversions, h2, hc]
          · simp [volumeConversions, h3, VolumeConversion.podVolume, hc, hv]
          · simp [volumeConversions, h4]
          · intro r hr
            simp only [volumeConversions, List.mem_cons] at hr
            rcases hr with rfl | hr
            · exact herr
            · exact h5 r hr
          · intro hk r hr
            simp only [volumeConversions, List.mem_cons] at hr
            rcases hr with rfl | hr
            · exact hc
            · exact h6 hk r hr
        | none =>
          simp only [hv] at h
          obtain ⟨h1, h2, h3, h4, h5, h6⟩ := ih (i + 1) _ acc' h
          refine ⟨by simpa using h1, ?_, ?_, ?_, ?_, ?_⟩
          · simp [volumeConversions, h2, hc]
          · simp [volumeConversions, h3, VolumeConversion.podVolume, hc, hv]
          · simp [volumeConversions, h4]
          · intro r hr
            simp only [volumeConversions, List.mem_cons] at hr
            rcases hr with rfl | hr
            · exact herr
            · exact h5 r hr
          · intro hk r hr
            simp only [volumeConversions, List.mem_cons] at hr
            rcases hr with rfl | hr
            · exact hc
            · exact h6 hk r hr
    · simp [herr] at h

/-- The volume loop completes when every conversion succeeds and claims only occur
under the stateful kind. -/
theorem volumesLoop_progress {T : Types} (H : Helpers T) (resources : T.ResourceStates)
    (kind containerName : String) (volSub : SubstitutionFunction)
    (vs : List T.ContainerVolumesElem) :
    ∀ (i : Nat) (acc : ContainerAcc T),
      (∀ r ∈ volumeConversions H resources volSub i vs, r.err = none) →
      (kind = WorkloadKindStatefulSet ∨
        ∀ r ∈ volumeConversions H resources volSub i vs, r.claim = none) →
      ∃ acc', volumesLoop H resources kind containerName volSub i vs acc = .ok acc' := by
  induction vs with
  | nil => intro i acc _ _; exact ⟨acc, rfl⟩
  | cons v rest ih =>
    intro i acc herr hkind
    have h0 : (H.convertContainerVolume i v resources volSub).err = none :=
      herr _ (by simp [volumeConversions])
    have herr' : ∀ r ∈ volumeConversions H resources volSub (i + 1) rest, r.err = none :=
      fun r hr => herr r (by simp [volumeConversions, hr])
    have hkind' : kind = WorkloadKindStatefulSet ∨
        ∀ r ∈ volumeConversions H resources volSub (i + 1) rest, r.claim = none := by
      rcases hkind with hk | hk
      · exact Or.inl hk
      · exact Or.inr (fun r hr => hk r (by simp [volumeConversions, hr]))
    simp only [volumesLoop, h0, ne_eq, not_true_eq_false, if_false]
    cases hc : (H.convertContainerVolume i v resources volSub).claim with
    | some c =>
      have hk : kind = WorkloadKindStatefulSet := by
        rcases hkind with hk | hk
        · exact hk
        · have := hk _ (by simp [volumeConversions] : H.convertContainerVolume i v resources volSub
            ∈ volumeConversions H resources volSub i (v :: rest))
          rw [hc] at this
          cases this
      simp only [hk, not_true_eq_false, if_false]
      exact hk ▸ ih (i + 1) _ herr' hkind'
    | none =>
      cases hv : (H.convertContainerVolume i v resources volSub).vol with
      | some vol => exact ih (i + 1) _ herr' hkind'
      | none => exact ih (i + 1) _ herr' hkind'

/-- Outside the stateful kind, the volume loop leaves through line 89 with the
`nil` error as soon as a successful conversion yields a claim. -/
theorem volumesLoop_claim_slip {T : Types} (H : Helpers T) (resources : T.ResourceStates)
    (kind containerName : String) (volSub : SubstitutionFunction)
    (hk : kind ≠ WorkloadKindStatefulSet) (vs : List T.ContainerVolumesElem) :
    ∀ (i : Nat) (acc : ContainerAcc T),
      (∀ r ∈ volumeConversions H resources volSub i vs, r.err = none) →
      (∃ r ∈ volumeConversions H resources volSub i vs, r.claim ≠ none) →
      volumesLoop H resources kind containerName volSub i vs acc = .error none := by
  induction vs with
  | nil => intro i acc _ hex; simp [volumeConversions] at hex
  | cons v rest ih =>
    intro i acc herr hex
    have h0 : (H.convertContainerVolume i v resources volSub).err = none :=
      herr _ (by simp [volumeConversions])
    have herr' : ∀ r ∈ volumeConversions H resources volSub (i + 1) rest, r.err = none :=
      fun r hr => herr r (by simp [volumeConversions, hr])
    simp only [volumesLoop, h0, ne_eq, not_true_eq_false, if_false]
    cases hc : (H.convertContainerVolume i v resources volSub).claim with
    | some c => simp [hk, Wrapf]
    | none =>
      have hex' : ∃ r ∈ volumeConversions H resources volSub (i + 1) rest, r.claim ≠ none := by
        obtain ⟨r, hr, hrc⟩ := hex
        simp only [volumeConversions, List.mem_cons] at hr
        rcases hr with rfl | hr
        · exact absurd hc hrc
        · exact ⟨r, hr, hrc⟩
      cases hv : (H.convertContainerVolume i v resources volSub).vol with
      | some vol => exact ih (i + 1) _ herr' hex'
      | none => exact ih (i + 1) _ herr' hex'

/-- A completed run of the file loop: what it appended, and that every conversion
succeeded. -/
theorem filesLoop_ok {T : Types} (H : Helpers T) (file : Option String)
    (cfgNames containerName : String) (sf : SubstitutionFunction)
    (fs : List T.ContainerFilesElem) :
    ∀ (i : Nat) (acc acc' : ContainerAcc T),
      filesLoop H file cfgNames containerName sf i fs acc = .ok acc' →
      acc'.manifests = acc.manifests ++
        ((fileConversions H file cfgNames sf i fs).filterMap (fun r => r.cfg)).map
          Manifest.config ∧
      acc'.volumeClaimTemplates = acc.volumeClaimTemplates ∧
      acc'.containerVolumes = acc.containerVolumes ++
        (fileConversions H file cfgNames sf i fs).filterMap (fun r => r.vol) ∧
      acc'.containerVolumeMounts = acc.containerVolumeMounts ++
        (fileConversions H file cfgNames sf i fs).map (fun r => r.mount) ∧
      (∀ r ∈ fileConversions H file cfgNames sf i fs, r.err = none) := by
  induction fs with
  | nil =>
    intro i acc acc' h
    simp only [filesLoop, Except.ok.injEq] at h
    subst h
    simp [fileConversions]
  | cons f rest ih =>
    intro i acc acc' h
    simp only [filesLoop] at h
    by_cases herr : (H.convertContainerFile i f cfgNames file sf).err = none
    · simp only [herr, ne_eq, not_true_eq_false, if_false] at h
      obtain ⟨h1, h2, h3, h4, h5⟩ := ih (i + 1) _ acc' h
      refine ⟨?_, ?_, ?_, ?_, ?_⟩
      · rw [h1]
        cases hc : (H.convertContainerFile i f cfgNames file sf).cfg <;>
          cases hv : (H.convertContainerFile i f cfgNames file sf).vol <;>
          simp [fileConversions, hc]
      · rw [h2]
        cases hc : (H.convertContainerFile i f cfgNames file sf).cfg <;>
          cases hv : (H.convertContainerFile i f cfgNames file sf).vol <;> rfl
      · rw [h3]
        cases hc : (H.convertContainerFile i f cfgNames file sf).cfg <;>
          cases hv : (H.convertContainerFile i f cfgNames file sf).vol <;>
          simp [fileConversions, hv]
      · rw [h4]
        cases hc : (H.convertContainerFile i f cfgNames file sf).cfg <;>
          cases hv : (H.convertContainerFile i f cfgNames file sf).vol <;>
          simp [fileConversions]
      · intro r hr
        simp only [fileConversions, List.mem_cons] at hr
        rcases hr with rfl | hr
        · exact herr
        · exact h5 r hr
    · simp [herr] at h

/-- The file loop completes when every conversion succeeds. -/
theorem filesLoop_progress {T : Types} (H : Helpers T) (file : Option String)
    (cfgNames containerName : String) (sf : SubstitutionFunction)
    (fs : List T.ContainerFilesElem) :
    ∀ (i : Nat) (acc : ContainerAcc T),
      (∀ r ∈ fileConversions H file cfgNames sf i fs, r.err = none) →
      ∃ acc', filesLoop H file cfgNames containerName sf i fs acc = .ok acc' := by
  induction fs with
  | nil => intro i acc _; exact ⟨acc, rfl⟩
  | cons f rest ih =>
    intro i acc herr
    have h0 : (H.convertContainerFile i f cfgNames file sf).err = none :=
      herr _ (by simp [fileConversions])
    simp only [filesLoop, h0, ne_eq, not_true_eq_false, if_false]
    exact ih (i + 1) _ (fun r hr => herr r (by simp [fileConversions, hr]))

/-- A completed container iteration: its result and what it met on the way. -/
theorem containerStep_ok {T : Types} (H : Helpers T) (state : State T)
    (workloadName : String) (spec : WorkloadSpec T) (sf : SubstitutionFunction)
    (kind : String) (st st' : LoopState T) (nc : String × ScoreContainer T)
    (h : containerStep H state workloadName spec sf kind st nc.1 nc.2 = .ok st') :
    st' = stepResult H state workloadName spec sf st nc ∧
    ContainerHelpersOk H state workloadName spec sf nc ∧
    (kind ≠ WorkloadKindStatefulSet → ContainerClaimFree H state workloadName spec sf nc) := by
  simp only [containerStep] at h
  by_cases hres : (H.convertContainerResources nc.2.Resources).2 = none
  swap
  · simp [hres] at h
  by_cases henv : (H.convertContainerVariables nc.2.Variables sf).2 = none
  swap
  · simp [hres, henv] at h
  simp only [hres, henv, ne_eq, not_true_eq_false, if_false] at h
  cases hv : volumesLoop H state.Resources kind nc.1
      (volSubstitutionFunction H spec workloadName sf) 0 nc.2.Volumes
      { manifests := st.manifests
        volumeClaimTemplates := st.volumeClaimTemplates
        containerVolumes := []
        containerVolumeMounts := [] } with
  | error e => simp [hv] at h
  | ok acc =>
    simp only [hv] at h
    cases hf : filesLoop H (state.workload workloadName).File
        (workloadName ++ "-" ++ nc.1 ++ "-") nc.1 sf 0 nc.2.Files acc with
    | error e => simp [hf] at h
    | ok acc2 =>
      simp only [hf] at h
      obtain ⟨v1, v2, v3, v4, v5, v6⟩ := volumesLoop_ok H _ _ _ _ _ _ _ _ hv
      obtain ⟨f1, f2, f3, f4, f5⟩ := filesLoop_ok H _ _ _ _ _ _ _ _ hf
      simp only [List.nil_append] at v3 v4
      have hcol : H.collapseVolumeMounts acc2.containerVolumes acc2.containerVolumeMounts
          = containerCollapse H state workloadName spec sf nc := by
        simp only [containerCollapse, collapseCall, containerVolumeConversions,
          containerFileConversions, f3, f4, v3, v4]
      rw [hcol] at h
      by_cases hc : (containerCollapse H state workloadName spec sf nc).err = none
      · simp only [hc, ne_eq, not_true_eq_false, if_false, Except.ok.injEq] at h
        refine ⟨?_, ⟨hres, henv, v5, f5, hc⟩, v6⟩
        rw [← h]
        simp only [stepResult, assembledContainer, containerVolumeConversions,
          containerFileConversions, f1, f2, v1, v2]
      · simp [hc] at h

/-- A container iteration completes when its helpers succeed and claims only occur
under the stateful kind. -/
theorem containerStep_progress {T : Types} (H : Helpers T) (state : State T)
    (workloadName : String) (spec : WorkloadSpec T) (sf : SubstitutionFunction)
    (kind : String) (st : LoopState T) (nc : String × ScoreContainer T)
    (hok : ContainerHelpersOk H state workloadName spec sf nc)
    (hkind : kind = WorkloadKindStatefulSet ∨
      ContainerClaimFree H state workloadName spec sf nc) :
    containerStep H state workloadName spec sf kind st nc.1 nc.2 =
      .ok (stepResult H state workloadName spec sf st nc) := by
  obtain ⟨hres, henv, hv, hf, hc⟩ := hok
  obtain ⟨acc, hacc⟩ := volumesLoop_progress H state.Resources kind nc.1
    (volSubstitutionFunction H spec workloadName sf) nc.2.Volumes 0
    { manifests := st.manifests
      volumeClaimTemplates := st.volumeClaimTemplates
      containerVolumes := []
      containerVolumeMounts := [] } hv hkind
  obtain ⟨acc2, hacc2⟩ := filesLoop_progress H (state.workload workloadName).File
    (workloadName ++ "-" ++ nc.1 ++ "-") nc.1 sf nc.2.Files 0 acc hf
  obtain ⟨v1, v2, v3, v4, -, -⟩ := volumesLoop_ok H _ _ _ _ _ _ _ _ hacc
  obtain ⟨f1, f2, f3, f4, -⟩ := filesLoop_ok H _ _ _ _ _ _ _ _ hacc2
  simp only [List.nil_append] at v3 v4
  have hcol : H.collapseVolumeMounts acc2.containerVolumes acc2.containerVolumeMounts
      = containerCollapse H state workloadName spec sf nc := by
    simp only [containerCollapse, collapseCall, containerVolumeConversions,
      containerFileConversions, f3, f4, v3, v4]
  simp only [containerStep, hres, henv, ne_eq, not_true_eq_false, if_false, hacc, hacc2, hcol,
    hc, Except.ok.injEq]
  simp only [stepResult, assembledContainer, containerVolumeConversions,
    containerFileConversions, f1, f2, v1, v2]

/-- Outside the stateful kind, a container iteration whose conversions succeed and
one of whose volumes yields a claim returns the `nil` error of line 89. -/
theorem containerStep_claim_slip {T : Types} (H : Helpers T) (state : State T)
    (workloadName : String) (spec : WorkloadSpec T) (sf : SubstitutionFunction)
    (kind : String) (hk : kind ≠ WorkloadKindStatefulSet) (st : LoopState T)
    (nc : String × ScoreContainer T)
    (hres : (H.convertContainerResources nc.2.Resources).2 = none)
    (henv : (H.convertContainerVariables nc.2.Variables sf).2 = none)
    (hv : ∀ r ∈ containerVolumeConversions H state workloadName spec sf nc.2, r.err = none)
    (hex : ¬ ContainerClaimFree H state workloadName spec sf nc) :
    containerStep H state workloadName spec sf kind st nc.1 nc.2 = .error none := by
  have hex' : ∃ r ∈ containerVolumeConversions H state workloadName spec sf nc.2,
      r.claim ≠ none := by
    simpa [ContainerClaimFree] using hex
  have := volumesLoop_claim_slip H state.Resources kind nc.1
    (volSubstitutionFunction H spec workloadName sf) hk nc.2.Volumes 0
    { manifests := st.manifests
      volumeClaimTemplates := st.volumeClaimTemplates
      containerVolumes := []
      containerVolumeMounts := [] } hv hex'
  simp only [containerStep, hres, henv, ne_eq, not_true_eq_false, if_false, this]

/-! ## The loop over the containers -/

/-- A completed container loop: its final state and what it met on the way. -/
theorem containersLoop_ok {T : Types} (H : Helpers T) (state : State T)
    (workloadName : String) (spec : WorkloadSpec T) (sf : SubstitutionFunction)
    (kind : String) (cs : List (String × ScoreContainer T)) :
    ∀ (st st' : LoopState T),
      containersLoop H state workloadName spec sf kind cs st = .ok st' →
      st' = cs.foldl (stepResult H state workloadName spec sf) st ∧
      (∀ nc ∈ cs, ContainerHelpersOk H state workloadName spec sf nc) ∧
      (kind ≠ WorkloadKindStatefulSet →
        ∀ nc ∈ cs, ContainerClaimFree H state workloadName spec sf nc) := by
  induction cs with
  | nil =>
    intro st st' h
    simp only [containersLoop, Except.ok.injEq] at h
    simp [h]
  | cons nc rest ih =>
    intro st st' h
    obtain ⟨n, c⟩ := nc
    simp only [containersLoop] at h
    cases hs : containerStep H state workloadName spec sf kind st n c with
    | error e => simp [hs] at h
    | ok st1 =>
      simp only [hs] at h
      obtain ⟨s1, s2, s3⟩ := containerStep_ok H state workloadName spec sf kind st st1 (n, c) hs
      obtain ⟨r1, r2, r3⟩ := ih st1 st' h
      refine ⟨?_, ?_, ?_⟩
      · rw [r1, s1, List.foldl_cons]
      · intro nc hnc
        rcases List.mem_cons.mp hnc with rfl | hnc
        · exact s2
        · exact r2 nc hnc
      · intro hk nc hnc
        rcases List.mem_cons.mp hnc with rfl | hnc
        · exact s3 hk
        · exact r3 hk nc hnc

/-- The container loop completes when the helpers of every container succeed and
claims only occur under the stateful kind. -/
theorem containersLoop_progress {T : Types} (H : Helpers T) (state : State T)
    (workloadName : String) (spec : WorkloadSpec T) (sf : SubstitutionFunction)
    (kind : String) (cs : List (String × ScoreContainer T)) :
    ∀ (st : LoopState T),
      (∀ nc ∈ cs, ContainerHelpersOk H state workloadName spec sf nc) →
      (kind = WorkloadKindStatefulSet ∨
        ∀ nc ∈ cs, ContainerClaimFree H state workloadName spec sf nc) →
      containersLoop H state workloadName spec sf kind cs st =
        .ok (cs.foldl (stepResult H state workloadName spec sf) st) := by
  induction cs with
  | nil => intro st _ _; rfl
  | cons nc rest ih =>
    intro st hok hkind
    obtain ⟨n, c⟩ := nc
    have h1 := containerStep_progress H state workloadName spec sf kind st (n, c)
      (hok _ (List.mem_cons_self _ _))
      (hkind.imp id (fun h => h _ (List.mem_cons_self _ _)))
    simp only [containersLoop, h1, List.foldl_cons]
    exact ih _ (fun nc hnc => hok nc (List.mem_cons_of_mem _ hnc))
      (hkind.imp id (fun h nc hnc => h nc (List.mem_cons_of_mem _ hnc)))

/-- Outside the stateful kind, a container loop all of whose helpers succeed and
one of whose volumes yields a claim returns the `nil` error of line 89. -/
theorem containersLoop_claim_slip {T : Types} (H : Helpers T) (state : State T)
    (workloadName : String) (spec : WorkloadSpec T) (sf : SubstitutionFunction)
    (kind : String) (hk : kind ≠ WorkloadKindStatefulSet)
    (cs : List (String × ScoreContainer T)) :
    ∀ (st : LoopState T),
      (∀ nc ∈ cs, ContainerHelpersOk H state workloadName spec sf nc) →
      (∃ nc ∈ cs, ¬ ContainerClaimFree H state workloadName spec sf nc) →
      containersLoop H state workloadName spec sf kind cs st = .error none := by
  induction cs with
  | nil => intro st _ hex; simp at hex
  | cons nc rest ih =>
    intro st hok hex
    obtain ⟨n, c⟩ := nc
    have hok0 := hok (n, c) (List.mem_cons_self _ _)
    by_cases hfree : ContainerClaimFree H state workloadName spec sf (n, c)
    · have h1 := containerStep_progress H state workloadName spec sf kind st (n, c) hok0
        (Or.inr hfree)
      simp only [containersLoop, h1]
      apply ih _ (fun nc hnc => hok nc (List.mem_cons_of_mem _ hnc))
      obtain ⟨nc, hnc, hx⟩ := hex
      rcases List.mem_cons.mp hnc with rfl | hnc
      · exact absurd hfree hx
      · exact ⟨nc, hnc, hx⟩
    · have h1 := containerStep_claim_slip H state workloadName spec sf kind hk st (n, c)
        hok0.1 hok0.2.1 hok0.2.2.1 hfree
      simp only [containersLoop, h1]

/-- The containers of the final loop state: one per container, in loop order. -/
theorem foldl_stepResult_containers {T : Types} (H : Helpers T) (state : State T)
    (workloadName : String) (spec : WorkloadSpec T) (sf : SubstitutionFunction)
    (cs : List (String × ScoreContainer T)) :
    ∀ st : LoopState T,
      (cs.foldl (stepResult H state workloadName spec sf) st).containers =
        st.containers ++ cs.map (fun nc =>
          assembledContainer H sf nc.1 nc.2 (containerCollapse H state workloadName spec sf nc)) := by
  induction cs with
  | nil => intro st; simp
  | cons nc rest ih => intro st; simp [ih, stepResult]

/-- The pod volumes of the final loop state. -/
theorem foldl_stepResult_volumes {T : Types} (H : Helpers T) (state : State T)
    (workloadName : String) (spec : WorkloadSpec T) (sf : SubstitutionFunction)
    (cs : List (String × ScoreContainer T)) :
    ∀ st : LoopState T,
      (cs.foldl (stepResult H state workloadName spec sf) st).volumes =
        st.volumes ++ cs.flatMap (fun nc =>
          (containerCollapse H state workloadName spec sf nc).volumes) := by
  induction cs with
  | nil => intro st; simp
  | cons nc rest ih => intro st; simp [ih, stepResult]

/-- The claim templates of the final loop state. -/
theorem foldl_stepResult_claims {T : Types} (H : Helpers T) (state : State T)
    (workloadName : String) (spec : WorkloadSpec T) (sf : SubstitutionFunction)
    (cs : List (String × ScoreContainer T)) :
    ∀ st : LoopState T,
      (cs.foldl (stepResult H state workloadName spec sf) st).volumeClaimTemplates =
        st.volumeClaimTemplates ++ cs.flatMap (fun nc =>
          (containerVolumeConversions H state workloadName spec sf nc.2).filterMap
            (fun r => r.claim)) := by
  induction cs with
  | nil => intro st; simp
  | cons nc rest ih => intro st; simp [ih, stepResult]

/-- The manifests of the final loop state: the config objects of the files. -/
theorem foldl_stepResult_manifests {T : Types} (H : Helpers T) (state : State T)
    (workloadName : String) (spec : WorkloadSpec T) (sf : SubstitutionFunction)
    (cs : List (String × ScoreContainer T)) :
    ∀ st : LoopState T,
      (cs.foldl (stepResult H state workloadName spec sf) st).manifests =
        st.manifests ++ (cs.flatMap (fun nc =>
          (containerFileConversions H state workloadName sf nc.1 nc.2).filterMap
            (fun r => r.cfg))).map Manifest.config := by
  induction cs with
  | nil => intro st; simp
  | cons nc rest ih => intro st; simp [ih, stepResult]

theorem appendNetworkService_eq {T : Types} (H : Helpers T) (state : State T)
    (workloadName : String) (ms : List (Manifest T)) :
    appendNetworkService H workloadName (runSpec state workloadName) ms =
      ms ++ (runNetworkService H state workloadName).toList.map Manifest.service := by
  unfold appendNetworkService runNetworkService
  cases (runSpec state workloadName).Service with
  | none => simp
  | some service => by_cases h : service.Ports.length > 0 <;> simp [h]

theorem selectKind_stateful {T : Types} (H : Helpers T) (state : State T)
    (workloadName : String) (err : GoError) (h : IsStateful H state workloadName) :
    selectKind H (runSpec state workloadName) err = .ok WorkloadKindStatefulSet := by
  unfold IsStateful kindAnnotation at h
  simp [selectKind, h]

theorem selectKind_stateless {T : Types} (H : Helpers T) (state : State T)
    (workloadName : String) (err : GoError) (h : IsStateless H state workloadName) :
    selectKind H (runSpec state workloadName) err = .ok WorkloadKindDeployment := by
  unfold IsStateless kindAnnotation at h
  rcases h with h | h <;> simp [selectKind, h]

theorem selectKind_unsupported {T : Types} (H : Helpers T) (state : State T)
    (workloadName : String) (err : GoError) (d : String)
    (h : kindAnnotation H state workloadName = some d)
    (h1 : d ≠ WorkloadKindDeployment) (h2 : d ≠ WorkloadKindStatefulSet) :
    selectKind H (runSpec state workloadName) err =
      .error (Wrapf err ("metadata: annotations: " ++ H.WorkloadKindAnnotation ++
        ": unsupported workload kind")) := by
  unfold kindAnnotation at h
  simp [selectKind, h, h1, h2]

/-- The kind that `selectKind` returns is one of the two supported kinds, and tells
the kind of the workload. -/
theorem selectKind_ok {T : Types} (H : Helpers T) (state : State T)
    (workloadName : String) (err : GoError) (kind : String)
    (h : selectKind H (runSpec state workloadName) err = .ok kind) :
    (kind = WorkloadKindStatefulSet ∧ IsStateful H state workloadName) ∨
    (kind = WorkloadKindDeployment ∧ IsStateless H state workloadName) := by
  unfold selectKind at h
  unfold IsStateful IsStateless kindAnnotation
  cases hf : H.FindAnnotation (runSpec state workloadName).Metadata H.WorkloadKindAnnotation with
  | none =>
    simp only [hf, Except.ok.injEq] at h
    exact Or.inr ⟨h.symm, Or.inl rfl⟩
  | some d =>
    simp only [hf] at h
    by_cases hd : d = WorkloadKindDeployment
    · simp only [hd, ne_eq, not_true_eq_false, false_and, if_false, Except.ok.injEq] at h
      exact Or.inr ⟨h.symm, Or.inr (by rw [hd])⟩
    · by_cases hs : d = WorkloadKindStatefulSet
      · simp only [hs, ne_eq, not_true_eq_false, and_false, if_false, Except.ok.injEq] at h
        exact Or.inl ⟨h.symm, by rw [hs]⟩
      · simp [hd, hs] at h

theorem stateful_not_stateless {T : Types} (H : Helpers T) (state : State T)
    (workloadName : String) (h : IsStateful H state workloadName) :
    ¬ IsStateless H state workloadName := by
  unfold IsStateful at h
  unfold IsStateless
  rw [h]
  simp [WorkloadKindStatefulSet, WorkloadKindDeployment]

theorem runFinal_eq {T : Types} (H : Helpers T) (state : State T) (workloadName : String) :
    runFinal H state workloadName =
      { manifests := (runConfigs H state workloadName).map Manifest.config
        volumes := runVolumes H state workloadName
        volumeClaimTemplates := runClaims H state workloadName
        containers := runAssembled H state workloadName } := by
  have h1 := foldl_stepResult_manifests H state workloadName (runSpec state workloadName)
    (runSf H state workloadName) (runContainers state workloadName) (loopInit T)
  have h2 := foldl_stepResult_volumes H state workloadName (runSpec state workloadName)
    (runSf H state workloadName) (runContainers state workloadName) (loopInit T)
  have h3 := foldl_stepResult_claims H state workloadName (runSpec state workloadName)
    (runSf H state workloadName) (runContainers state workloadName) (loopInit T)
  have h4 := foldl_stepResult_containers H state workloadName (runSpec state workloadName)
    (runSf H state workloadName) (runContainers state workloadName) (loopInit T)
  simp only [loopInit, List.nil_append] at h1 h2 h3 h4
  have eta : ∀ s : LoopState T, s =
      { manifests := s.manifests, volumes := s.volumes,
        volumeClaimTemplates := s.volumeClaimTemplates, containers := s.containers } :=
    fun _ => rfl
  rw [eta (runFinal H state workloadName)]
  unfold runFinal
  simp only [loopInit, LoopState.mk.injEq]
  exact ⟨h1, h2, h3, h4⟩

/-- A run of the stateful kind all of whose helpers succeed. -/
theorem ConvertWorkload_stateful_run {T : Types} (H : Helpers T) (state : State T)
    (workloadName : String) (hok : AllHelpersOk H state workloadName)
    (hk : IsStateful H state workloadName) :
    ConvertWorkload H state workloadName =
      { manifests := some (statefulManifests H state workloadName), err := none } := by
  obtain ⟨hout, hcs⟩ := hok
  have hloop := containersLoop_progress H state workloadName (runSpec state workloadName)
    (runSf H state workloadName) WorkloadKindStatefulSet (runContainers state workloadName)
    (loopInit T) hcs (Or.inl rfl)
  have hsel := selectKind_stateful H state workloadName none hk
  have hfin := runFinal_eq H state workloadName
  unfold runFinal at hfin
  unfold runSf runContainers runSpec loopInit at hloop
  unfold runSpec at hsel
  unfold runSf runContainers runSpec loopInit at hfin
  simp only [ConvertWorkload, hout, ne_eq, not_true_eq_false, if_false, hsel, hloop, hfin]
  simp only [appendController, WorkloadKindStatefulSet, WorkloadKindDeployment,
    String.reduceEq, if_false, if_true, ConvertResult.mk.injEq, and_true, Option.some.injEq]
  have := appendNetworkService_eq H state workloadName
    ((runConfigs H state workloadName).map Manifest.config)
  unfold runSpec at this
  rw [this]
  simp [statefulManifests, WorkloadKindStatefulSet]

/-- A run of the stateless kind all of whose helpers succeed and none of whose
volumes yields a claim. -/
theorem ConvertWorkload_stateless_run {T : Types} (H : Helpers T) (state : State T)
    (workloadName : String) (hok : AllHelpersOk H state workloadName)
    (hk : IsStateless H state workloadName) (hfree : RunClaimFree H state workloadName) :
    ConvertWorkload H state workloadName =
      { manifests := some (statelessManifests H state workloadName), err := none } := by
  obtain ⟨hout, hcs⟩ := hok
  have hloop := containersLoop_progress H state workloadName (runSpec state workloadName)
    (runSf H state workloadName) WorkloadKindDeployment (runContainers state workloadName)
    (loopInit T) hcs (Or.inr hfree)
  have hsel := selectKind_stateless H state workloadName none hk
  have hfin := runFinal_eq H state workloadName
  unfold runFinal at hfin
  unfold runSf runContainers runSpec loopInit at hloop
  unfold runSpec at hsel
  unfold runSf runContainers runSpec loopInit at hfin
  simp only [ConvertWorkload, hout, ne_eq, not_true_eq_false, if_false, hsel, hloop, hfin]
  simp only [appendController, if_true, ConvertResult.mk.injEq, and_true, Option.some.injEq]
  have := appendNetworkService_eq H state workloadName
    ((runConfigs H state workloadName).map Manifest.config)
  unfold runSpec at this
  rw [this]
  simp [statelessManifests]

/-- A run that returns a manifest list: every helper succeeded, and the workload is
of the stateful kind, or of the stateless kind without any claim. -/
theorem ConvertWorkload_some_inv {T : Types} (H : Helpers T) (state : State T)
    (workloadName : String) (ms : List (Manifest T))
    (h : (ConvertWorkload H state workloadName).manifests = some ms) :
    AllHelpersOk H state workloadName ∧
    (IsStateful H state workloadName ∨
      (IsStateless H state workloadName ∧ RunClaimFree H state workloadName)) := by
  unfold ConvertWorkload at h
  by_cases hout : (H.GetResourceOutputForWorkload state workloadName).2 = none
  swap
  · simp [hout] at h
  simp only [hout, ne_eq, not_true_eq_false, if_false] at h
  cases hsel : selectKind H (state.workload workloadName).Spec none with
  | error e => simp [hsel] at h
  | ok kind =>
    simp only [hsel] at h
    cases hloop : containersLoop H state workloadName (state.workload workloadName).Spec
        (H.BuildSubstitutionFunction (state.workload workloadName).Spec.Metadata
          (H.GetResourceOutputForWorkload state workloadName).1) kind
        (state.workload workloadName).Spec.Containers
        { manifests := [], volumes := [], volumeClaimTemplates := [], containers := [] } with
    | error e => simp [hloop] at h
    | ok st =>
      obtain ⟨-, l2, l3⟩ := containersLoop_ok H state workloadName _ _ kind _ _ _ hloop
      refine ⟨⟨hout, l2⟩, ?_⟩
      rcases selectKind_ok H state workloadName none kind hsel with ⟨_, hs⟩ | ⟨hkd, hs⟩
      · exact Or.inl hs
      · refine Or.inr ⟨hs, l3 ?_⟩
        rw [hkd]
        simp [WorkloadKindStatefulSet, WorkloadKindDeployment]

/-- The manifest list of a run of the stateful kind that returns one. -/
theorem ConvertWorkload_some_stateful {T : Types} (H : Helpers T) (state : State T)
    (workloadName : String) (ms : List (Manifest T))
    (hk : IsStateful H state workloadName)
    (h : (ConvertWorkload H state workloadName).manifests = some ms) :
    ms = statefulManifests H state workloadName := by
  have hinv := ConvertWorkload_some_inv H state workloadName ms h
  rw [ConvertWorkload_stateful_run H state workloadName hinv.1 hk] at h
  exact (Option.some.inj h).symm

/-- The manifest list of a run of the stateless kind that returns one. -/
theorem ConvertWorkload_some_stateless {T : Types} (H : Helpers T) (state : State T)
    (workloadName : String) (ms : List (Manifest T))
    (hk : IsStateless H state workloadName)
    (h : (ConvertWorkload H state workloadName).manifests = some ms) :
    ms = statelessManifests H state workloadName := by
  have hinv := ConvertWorkload_some_inv H state workloadName ms h
  rcases hinv.2 with hs | ⟨-, hfree⟩
  · exact absurd hk (stateful_not_stateless H state workloadName hs)
  · rw [ConvertWorkload_stateless_run H state workloadName hinv.1 hk hfree] at h
    exact (Option.some.inj h).symm

/-- A run that returns a manifest list is of one of the two kinds. -/
theorem ConvertWorkload_some_kind {T : Types} (H : Helpers T) (state : State T)
    (workloadName : String) (ms : List (Manifest T))
    (h : (ConvertWorkload H state workloadName).manifests = some ms) :
    IsStateful H state workloadName ∨ IsStateless H state workloadName :=
  (ConvertWorkload_some_inv H state workloadName ms h).2.imp id (fun h => h.1)

/-- A returned manifest list comes with the `nil` error. -/
theorem ConvertWorkload_some_err {T : Types} (H : Helpers T) (state : State T)
    (workloadName : String) (ms : List (Manifest T))
    (h : (ConvertWorkload H state workloadName).manifests = some ms) :
    (ConvertWorkload H state workloadName).err = none := by
  have hinv := ConvertWorkload_some_inv H state workloadName ms h
  rcases hinv.2 with hs | ⟨hs, hfree⟩
  · rw [ConvertWorkload_stateful_run H state workloadName hinv.1 hs]
  · rw [ConvertWorkload_stateless_run H state workloadName hinv.1 hs hfree]

/-! ## The manifests of a completed run -/

theorem serviceName_ne_headlessServiceName (workloadName : String) :
    WorkloadServiceName workloadName ≠ headlessServiceName workloadName := by
  unfold WorkloadServiceName headlessServiceName
  intro h
  have h2 := congrArg String.data h
  simp only [String.data_append, List.append_cancel_left_eq] at h2
  revert h2
  decide

theorem foldl_append_singleton {α β : Type} (f : α → β) (l : List α) :
    ∀ init : List β, l.foldl (fun acc x => acc ++ [f x]) init = init ++ l.map f := by
  induction l with
  | nil => intro init; simp
  | cons x rest ih => intro init; simp [ih]

/-- The port list holds one entry per declared port, in loop order. -/
theorem servicePortList_eq_map {T : Types} (H : Helpers T)
    (ports : List (String × ScoreServicePort)) :
    servicePortList H ports = ports.map (fun np => servicePort H np.1 np.2) := by
  unfold servicePortList
  rw [foldl_append_singleton (fun np => servicePort H np.1 np.2) ports []]
  simp

/-- The services of a returned manifest list: the network service of the run, and
under the stateful kind the headless service. -/
theorem mem_service_iff {T : Types} (H : Helpers T) (state : State T)
    (workloadName : String) (ms : List (Manifest T)) (svc : Service)
    (h : (ConvertWorkload H state workloadName).manifests = some ms) :
    Manifest.service svc ∈ ms ↔
      (runNetworkService H state workloadName = some svc ∨
        (IsStateful H state workloadName ∧ svc = headlessService workloadName)) := by
  rcases ConvertWorkload_some_kind H state workloadName ms h with hk | hk
  · rw [ConvertWorkload_some_stateful H state workloadName ms hk h]
    cases hn : runNetworkService H state workloadName <;>
      simp [statefulManifests, hn, hk, eq_comm]
  · have hns : ¬ IsStateful H state workloadName :=
      fun hs => stateful_not_stateless H state workloadName hs hk
    rw [ConvertWorkload_some_stateless H state workloadName ms hk h]
    cases hn : runNetworkService H state workloadName <;>
      simp [statelessManifests, hn, hns, eq_comm]

/-- The service named `WorkloadServiceName` in a returned manifest list is the
network service of the declared service. -/
theorem network_service_of_mem {T : Types} (H : Helpers T) (state : State T)
    (workloadName : String) (ms : List (Manifest T)) (svc : Service)
    (h : (ConvertWorkload H state workloadName).manifests = some ms)
    (hsvc : Manifest.service svc ∈ ms) (hname : svc.Name = WorkloadServiceName workloadName) :
    ∃ service, (runSpec state workloadName).Service = some service ∧
      0 < service.Ports.length ∧ svc = networkService H workloadName service := by
  rcases (mem_service_iff H state workloadName ms svc h).mp hsvc with hn | ⟨-, hh⟩
  · unfold runNetworkService at hn
    cases hs : (runSpec state workloadName).Service with
    | none => simp [hs] at hn
    | some service =>
      simp only [hs] at hn
      by_cases hp : service.Ports.length > 0
      · simp only [hp, if_true, Option.some.injEq] at hn
        exact ⟨service, rfl, hp, hn.symm⟩
      · simp [hp] at hn
  · rw [hh] at hname
    exact absurd hname.symm (serviceName_ne_headlessServiceName workloadName)

/-- The Deployment of a returned manifest list. -/
theorem deployment_of_mem {T : Types} (H : Helpers T) (state : State T)
    (workloadName : String) (ms : List (Manifest T)) (d : Deployment T)
    (h : (ConvertWorkload H state workloadName).manifests = some ms)
    (hd : Manifest.deployment d ∈ ms) :
    d = deployment workloadName (runAssembled H state workloadName)
      (runVolumes H state workloadName) := by
  rcases ConvertWorkload_some_kind H state workloadName ms h with hk | hk
  · rw [ConvertWorkload_some_stateful H state workloadName ms hk h] at hd
    simp [statefulManifests] at hd
  · rw [ConvertWorkload_some_stateless H state workloadName ms hk h] at hd
    simpa [statelessManifests] using hd

/-- The StatefulSet of a returned manifest list. -/
theorem statefulSet_of_mem {T : Types} (H : Helpers T) (state : State T)
    (workloadName : String) (ms : List (Manifest T)) (ss : StatefulSet T)
    (h : (ConvertWorkload H state workloadName).manifests = some ms)
    (hs : Manifest.statefulSet ss ∈ ms) :
    ss = statefulSet workloadName (runAssembled H state workloadName)
      (runVolumes H state workloadName) (runClaims H state workloadName) := by
  rcases ConvertWorkload_some_kind H state workloadName ms h with hk | hk
  · rw [ConvertWorkload_some_stateful H state workloadName ms hk h] at hs
    simpa [statefulManifests] using hs
  · rw [ConvertWorkload_some_stateless H state workloadName ms hk h] at hs
    simp [statelessManifests] at hs

/-- The assembled containers carry the keys of the container mapping, in loop
order. -/
theorem runAssembled_names {T : Types} (H : Helpers T) (state : State T)
    (workloadName : String) :
    (runAssembled H state workloadName).map (fun c => c.Name) =
      (runContainers state workloadName).map Prod.fst := by
  unfold runAssembled
  rw [List.map_map]
  rfl

theorem toInt32_of_range (x : Int) (h1 : -2147483648 ≤ x) (h2 : x ≤ 2147483647) :
    toInt32 x = x := by
  unfold toInt32
  omega

/-! ## Facts on the concrete instance and on the network service -/

/-- The helpers of the instance never fail on a workload of the state. -/
theorem demo_allHelpersOk (kind : Option String)
    (containers : List (String × ScoreContainer demoTypes)) (service : Option WorkloadService) :
    AllHelpersOk demoHelpers (demoState kind containers service) "api" := by
  refine ⟨rfl, ?_⟩
  intro nc _
  refine ⟨rfl, rfl, ?_, ?_, rfl⟩
  · unfold containerVolumeConversions
    generalize (0 : Nat) = i
    induction nc.2.Volumes generalizing i with
    | nil => intro r hr; simp [volumeConversions] at hr
    | cons v rest ih =>
      intro r hr
      simp only [volumeConversions, List.mem_cons] at hr
      rcases hr with rfl | hr
      · simp only [demoHelpers]
        split <;> rfl
      · exact ih (i + 1) r hr
  · unfold containerFileConversions
    generalize (0 : Nat) = i
    induction nc.2.Files generalizing i with
    | nil => intro r hr; simp [fileConversions] at hr
    | cons f rest ih =>
      intro r hr
      simp only [fileConversions, List.mem_cons] at hr
      rcases hr with rfl | hr
      · rfl
      · exact ih (i + 1) r hr

theorem runNetworkService_declared {T : Types} (H : Helpers T) (state : State T)
    (workloadName : String) (service : WorkloadService)
    (hs : (runSpec state workloadName).Service = some service)
    (hp : 0 < service.Ports.length) :
    runNetworkService H state workloadName = some (networkService H workloadName service) := by
  simp [runNetworkService, hs, hp]

theorem runNetworkService_undeclared {T : Types} (H : Helpers T) (state : State T)
    (workloadName : String) (hno : ¬ DeclaresPort state workloadName) :
    runNetworkService H state workloadName = none := by
  unfold runNetworkService
  cases hs : (runSpec state workloadName).Service with
  | none => rfl
  | some service =>
    by_cases hp : service.Ports.length > 0
    · exact absurd ⟨service, hs, hp⟩ hno
    · simp [hp]

/-- The number of services named `WorkloadServiceName` in a returned list. -/
theorem countP_network_service {T : Types} (H : Helpers T) (state : State T)
    (workloadName : String) (ms : List (Manifest T))
    (h : (ConvertWorkload H state workloadName).manifests = some ms) :
    ms.countP (Manifest.isServiceNamed (WorkloadServiceName workloadName)) =
      (runNetworkService H state workloadName).toList.length := by
  have hcfg : ∀ l : List T.ConfigObject,
      (l.map Manifest.config).countP
        (Manifest.isServiceNamed (WorkloadServiceName workloadName)) = 0 := by
    intro l
    induction l with
    | nil => rfl
    | cons c rest ih => simp [List.countP_cons, ih, Manifest.isServiceNamed]
  have hnet : ((runNetworkService H state workloadName).toList.map
      (Manifest.service : Service → Manifest T)).countP
      (Manifest.isServiceNamed (WorkloadServiceName workloadName)) =
      (runNetworkService H state workloadName).toList.length := by
    unfold runNetworkService
    cases (runSpec state workloadName).Service with
    | none => rfl
    | some service =>
      by_cases hp : service.Ports.length > 0
      · simp [hp, List.countP_cons, Manifest.isServiceNamed, networkService]
      · simp [hp]
  have hhl : Manifest.isServiceNamed (WorkloadServiceName workloadName)
      (Manifest.service (headlessService workloadName) : Manifest T) = false := by
    have := serviceName_ne_headlessServiceName workloadName
    simp [Manifest.isServiceNamed, headlessService, Ne.symm this]
  have hss : ∀ x : StatefulSet T,
      Manifest.isServiceNamed (WorkloadServiceName workloadName) (Manifest.statefulSet x) =
        false := fun _ => rfl
  have hdp : ∀ x : Deployment T,
      Manifest.isServiceNamed (WorkloadServiceName workloadName) (Manifest.deployment x) =
        false := fun _ => rfl
  rcases ConvertWorkload_some_kind H state workloadName ms h with hk | hk
  · rw [ConvertWorkload_some_stateful H state workloadName ms hk h]
    simp [statefulManifests, List.countP_append, hcfg, hnet, List.countP_cons, hhl, hss]
  · rw [ConvertWorkload_some_stateless H state workloadName ms hk h]
    simp [statelessManifests, List.countP_append, hcfg, hnet, List.countP_cons, hdp]

/-! ## The controller object and the two early returns -/

/-- A returned manifest list ends with its only controller object, which carries
the pod template and the selector of the run. -/
theorem controller_last {T : Types} (H : Helpers T) (state : State T)
    (workloadName : String) (ms : List (Manifest T))
    (h : (ConvertWorkload H state workloadName).manifests = some ms) :
    ∃ (front : List (Manifest T)) (ctrl : Manifest T),
      ms = front ++ [ctrl] ∧
      (∀ m ∈ front, m.isController = false) ∧
      ctrl.isController = true ∧
      ctrl.template = some (podTemplate workloadName (runAssembled H state workloadName)
        (runVolumes H state workloadName)) ∧
      ctrl.selector = some (workloadSelector workloadName) := by
  have hfront : ∀ (l : List T.ConfigObject) (o : Option Service) (extra : List Service),
      ∀ m ∈ l.map Manifest.config ++ o.toList.map Manifest.service ++
        extra.map (Manifest.service : Service → Manifest T), m.isController = false := by
    intro l o extra m hm
    rcases List.mem_append.mp hm with hm | hm
    · rcases List.mem_append.mp hm with hm | hm
      · obtain ⟨c, -, rfl⟩ := List.mem_map.mp hm
        rfl
      · obtain ⟨c, -, rfl⟩ := List.mem_map.mp hm
        rfl
    · obtain ⟨c, -, rfl⟩ := List.mem_map.mp hm
      rfl
  rcases ConvertWorkload_some_kind H state workloadName ms h with hk | hk
  · refine ⟨(runConfigs H state workloadName).map Manifest.config ++
        (runNetworkService H state workloadName).toList.map Manifest.service ++
        [headlessService workloadName].map Manifest.service,
      Manifest.statefulSet (statefulSet workloadName (runAssembled H state workloadName)
        (runVolumes H state workloadName) (runClaims H state workloadName)),
      ?_, hfront _ _ _, rfl, rfl, rfl⟩
    rw [ConvertWorkload_some_stateful H state workloadName ms hk h]
    simp [statefulManifests]
  · refine ⟨(runConfigs H state workloadName).map Manifest.config ++
        (runNetworkService H state workloadName).toList.map Manifest.service ++
        ([] : List Service).map Manifest.service,
      Manifest.deployment (deployment workloadName (runAssembled H state workloadName)
        (runVolumes H state workloadName)),
      ?_, hfront _ _ _, rfl, rfl, rfl⟩
    rw [ConvertWorkload_some_stateless H state workloadName ms hk h]
    simp [statelessManifests]

/-- The return of line 39: an unsupported kind gives no manifests and the `nil`
error. -/
theorem ConvertWorkload_unsupported_kind {T : Types} (H : Helpers T) (state : State T)
    (workloadName : String) (d : String)
    (hout : (H.GetResourceOutputForWorkload state workloadName).2 = none)
    (hd : kindAnnotation H state workloadName = some d)
    (h1 : d ≠ WorkloadKindDeployment) (h2 : d ≠ WorkloadKindStatefulSet) :
    ConvertWorkload H state workloadName = { manifests := none, err := none } := by
  have hsel := selectKind_unsupported H state workloadName none d hd h1 h2
  unfold runSpec at hsel
  simp only [ConvertWorkload, hout, ne_eq, not_true_eq_false, if_false, hsel, Wrapf_none]

/-- The return of line 89: a claim under the stateless kind gives no manifests and
the `nil` error. -/
theorem ConvertWorkload_stateless_claim {T : Types} (H : Helpers T) (state : State T)
    (workloadName : String) (hok : AllHelpersOk H state workloadName)
    (hk : IsStateless H state workloadName) (hclaim : ¬ RunClaimFree H state workloadName) :
    ConvertWorkload H state workloadName = { manifests := none, err := none } := by
  obtain ⟨hout, hcs⟩ := hok
  have hsel := selectKind_stateless H state workloadName none hk
  have hex : ∃ nc ∈ runContainers state workloadName,
      ¬ ContainerClaimFree H state workloadName (runSpec state workloadName)
        (runSf H state workloadName) nc := by
    simpa [RunClaimFree] using hclaim
  have hloop := containersLoop_claim_slip H state workloadName (runSpec state workloadName)
    (runSf H state workloadName) WorkloadKindDeployment (by decide)
    (runContainers state workloadName) (loopInit T) hcs hex
  unfold runSf runContainers runSpec loopInit at hloop
  unfold runSpec at hsel
  simp only [ConvertWorkload, hout, ne_eq, not_true_eq_false, if_false, hsel, hloop]

/-! ## Runs that differ in the visit order of the mappings -/

/-- The container iteration reads the state only through `state.Resources` and the
entry of the workload. -/
theorem containerStep_congr {T : Types} (H : Helpers T) (st1 st2 : State T)
    (workloadName : String) (spec : WorkloadSpec T) (sf : SubstitutionFunction)
    (kind : String) (hR : st1.Resources = st2.Resources)
    (hF : (st1.workload workloadName).File = (st2.workload workloadName).File)
    (st : LoopState T) (containerName : String) (container : ScoreContainer T) :
    containerStep H st1 workloadName spec sf kind st containerName container =
      containerStep H st2 workloadName spec sf kind st containerName container := by
  simp only [containerStep, hR, hF]

theorem containersLoop_congr {T : Types} (H : Helpers T) (st1 st2 : State T)
    (workloadName : String) (spec : WorkloadSpec T) (sf : SubstitutionFunction)
    (kind : String) (hR : st1.Resources = st2.Resources)
    (hF : (st1.workload workloadName).File = (st2.workload workloadName).File)
    (cs : List (String × ScoreContainer T)) :
    ∀ st : LoopState T,
      containersLoop H st1 workloadName spec sf kind cs st =
        containersLoop H st2 workloadName spec sf kind cs st := by
  induction cs with
  | nil => intro st; rfl
  | cons nc rest ih =>
    intro st
    obtain ⟨n, c⟩ := nc
    simp only [containersLoop, containerStep_congr H st1 st2 workloadName spec sf kind hR hF]
    cases containerStep H st2 workloadName spec sf kind st n c with
    | error e => rfl
    | ok st' => exact ih st'

/-- The result of `ConvertWorkload` depends on the state only through its
resources, the entry of the workload and the resource outputs. -/
theorem ConvertWorkload_congr {T : Types} (H : Helpers T) (st1 st2 : State T)
    (workloadName : String) (hR : st1.Resources = st2.Resources)
    (hW : st1.workload workloadName = st2.workload workloadName)
    (hO : H.GetResourceOutputForWorkload st1 workloadName =
      H.GetResourceOutputForWorkload st2 workloadName) :
    ConvertWorkload H st1 workloadName = ConvertWorkload H st2 workloadName := by
  have hloop := fun spec sf kind cs st =>
    containersLoop_congr H st1 st2 workloadName spec sf kind hR (by rw [hW]) cs st
  simp only [ConvertWorkload, hO, hW, hloop]

theorem runSf_congr {T : Types} (H : Helpers T) (st1 st2 : State T)
    (workloadName : String) (h : SameInput H st1 st2 workloadName) :
    runSf H st1 workloadName = runSf H st2 workloadName := by
  obtain ⟨-, -, hM, -, -, -, hO⟩ := h
  simp only [runSf, hM, hO]

theorem kindAnnotation_congr {T : Types} (H : Helpers T) (st1 st2 : State T)
    (workloadName : String) (h : SameInput H st1 st2 workloadName) :
    kindAnnotation H st1 workloadName = kindAnnotation H st2 workloadName := by
  obtain ⟨-, -, hM, -, -, -, -⟩ := h
  simp only [ kindAnnotation, hM]

theorem containerVolumeConversions_congr {T : Types} (H : Helpers T) (st1 st2 : State T)
    (workloadName : String) (h : SameInput H st1 st2 workloadName)
    (sf : SubstitutionFunction) (container : ScoreContainer T) :
    containerVolumeConversions H st1 workloadName (runSpec st1 workloadName) sf container =
      containerVolumeConversions H st2 workloadName (runSpec st2 workloadName) sf container := by
  obtain ⟨hR, -, -, hRes, -, -, -⟩ := h
  have hvs : volSubstitutionFunction H (runSpec st1 workloadName) workloadName sf =
      volSubstitutionFunction H (runSpec st2 workloadName) workloadName sf := by
    funext ref
    simp only [volSubstitutionFunction, hRes]
  simp only [containerVolumeConversions, hR, hvs]

theorem containerFileConversions_congr {T : Types} (H : Helpers T) (st1 st2 : State T)
    (workloadName : String) (h : SameInput H st1 st2 workloadName)
    (sf : SubstitutionFunction) (containerName : String) (container : ScoreContainer T) :
    containerFileConversions H st1 workloadName sf containerName container =
      containerFileConversions H st2 workloadName sf containerName container := by
  obtain ⟨-, hF, -, -, -, -, -⟩ := h
  simp only [containerFileConversions, hF]

theorem containerCollapse_congr {T : Types} (H : Helpers T) (st1 st2 : State T)
    (workloadName : String) (h : SameInput H st1 st2 workloadName)
    (sf : SubstitutionFunction) (nc : String × ScoreContainer T) :
    containerCollapse H st1 workloadName (runSpec st1 workloadName) sf nc =
      containerCollapse H st2 workloadName (runSpec st2 workloadName) sf nc := by
  simp only [containerCollapse, containerVolumeConversions_congr H st1 st2 workloadName h,
    containerFileConversions_congr H st1 st2 workloadName h]

theorem ContainerHelpersOk_congr {T : Types} (H : Helpers T) (st1 st2 : State T)
    (workloadName : String) (h : SameInput H st1 st2 workloadName)
    (nc : String × ScoreContainer T) :
    ContainerHelpersOk H st1 workloadName (runSpec st1 workloadName)
        (runSf H st1 workloadName) nc ↔
      ContainerHelpersOk H st2 workloadName (runSpec st2 workloadName)
        (runSf H st2 workloadName) nc := by
  simp only [ContainerHelpersOk, runSf_congr H st1 st2 workloadName h,
    containerVolumeConversions_congr H st1 st2 workloadName h,
    containerFileConversions_congr H st1 st2 workloadName h,
    containerCollapse_congr H st1 st2 workloadName h]

theorem ContainerClaimFree_congr {T : Types} (H : Helpers T) (st1 st2 : State T)
    (workloadName : String) (h : SameInput H st1 st2 workloadName)
    (nc : String × ScoreContainer T) :
    ContainerClaimFree H st1 workloadName (runSpec st1 workloadName)
        (runSf H st1 workloadName) nc ↔
      ContainerClaimFree H st2 workloadName (runSpec st2 workloadName)
        (runSf H st2 workloadName) nc := by
  simp only [ContainerClaimFree, runSf_congr H st1 st2 workloadName h,
    containerVolumeConversions_congr H st1 st2 workloadName h]

/-- Whether every helper succeeds does not depend on the visit order. -/
theorem AllHelpersOk_congr {T : Types} (H : Helpers T) (st1 st2 : State T)
    (workloadName : String) (h : SameInput H st1 st2 workloadName) :
    AllHelpersOk H st1 workloadName ↔ AllHelpersOk H st2 workloadName := by
  have hperm : (runContainers st1 workloadName).Perm (runContainers st2 workloadName) := h.2.2.2.2.1
  have hO := h.2.2.2.2.2.2
  unfold AllHelpersOk
  rw [hO]
  constructor
  · rintro ⟨h1, h2⟩
    exact ⟨h1, fun nc hnc => (ContainerHelpersOk_congr H st1 st2 workloadName h nc).mp
      (h2 nc (hperm.mem_iff.mpr hnc))⟩
  · rintro ⟨h1, h2⟩
    exact ⟨h1, fun nc hnc => (ContainerHelpersOk_congr H st1 st2 workloadName h nc).mpr
      (h2 nc (hperm.mem_iff.mp hnc))⟩

/-- Whether the run is free of claims does not depend on the visit order. -/
theorem RunClaimFree_congr {T : Types} (H : Helpers T) (st1 st2 : State T)
    (workloadName : String) (h : SameInput H st1 st2 workloadName) :
    RunClaimFree H st1 workloadName ↔ RunClaimFree H st2 workloadName := by
  have hperm : (runContainers st1 workloadName).Perm (runContainers st2 workloadName) := h.2.2.2.2.1
  unfold RunClaimFree
  constructor
  · intro h2 nc hnc
    exact (ContainerClaimFree_congr H st1 st2 workloadName h nc).mp
      (h2 nc (hperm.mem_iff.mpr hnc))
  · intro h2 nc hnc
    exact (ContainerClaimFree_congr H st1 st2 workloadName h nc).mpr
      (h2 nc (hperm.mem_iff.mp hnc))

/-- A run returns a manifest list exactly when every helper succeeds and the
workload is of the stateful kind, or of the stateless kind without any claim. -/
theorem manifests_some_iff {T : Types} (H : Helpers T) (state : State T)
    (workloadName : String) :
    (∃ ms, (ConvertWorkload H state workloadName).manifests = some ms) ↔
      (AllHelpersOk H state workloadName ∧
        (IsStateful H state workloadName ∨
          (IsStateless H state workloadName ∧ RunClaimFree H state workloadName))) := by
  constructor
  · rintro ⟨ms, hms⟩
    exact ConvertWorkload_some_inv H state workloadName ms hms
  · rintro ⟨hok, hk | ⟨hk, hfree⟩⟩
    · exact ⟨_, by rw [ConvertWorkload_stateful_run H state workloadName hok hk]⟩
    · exact ⟨_, by rw [ConvertWorkload_stateless_run H state workloadName hok hk hfree]⟩

/-- The config objects of two runs on the same input agree up to order. -/
theorem runConfigs_perm {T : Types} (H : Helpers T) (st1 st2 : State T)
    (workloadName : String) (h : SameInput H st1 st2 workloadName) :
    (runConfigs H st1 workloadName).Perm (runConfigs H st2 workloadName) := by
  have hperm : (runContainers st1 workloadName).Perm (runContainers st2 workloadName) := h.2.2.2.2.1
  simp only [runConfigs, runSf_congr H st1 st2 workloadName h,
    containerFileConversions_congr H st1 st2 workloadName h]
  exact hperm.flatMap_right _

/-- The claim templates of two runs on the same input agree up to order. -/
theorem runClaims_perm {T : Types} (H : Helpers T) (st1 st2 : State T)
    (workloadName : String) (h : SameInput H st1 st2 workloadName) :
    (runClaims H st1 workloadName).Perm (runClaims H st2 workloadName) := by
  have hperm : (runContainers st1 workloadName).Perm (runContainers st2 workloadName) := h.2.2.2.2.1
  simp only [runClaims, runSf_congr H st1 st2 workloadName h,
    containerVolumeConversions_congr H st1 st2 workloadName h]
  exact hperm.flatMap_right _

/-- The pod volumes of two runs on the same input agree up to order. -/
theorem runVolumes_perm {T : Types} (H : Helpers T) (st1 st2 : State T)
    (workloadName : String) (h : SameInput H st1 st2 workloadName) :
    (runVolumes H st1 workloadName).Perm (runVolumes H st2 workloadName) := by
  have hperm : (runContainers st1 workloadName).Perm (runContainers st2 workloadName) := h.2.2.2.2.1
  simp only [runVolumes, runSf_congr H st1 st2 workloadName h,
    containerCollapse_congr H st1 st2 workloadName h]
  exact hperm.flatMap_right _

/-- The assembled containers of two runs on the same input agree up to order. -/
theorem runAssembled_perm {T : Types} (H : Helpers T) (st1 st2 : State T)
    (workloadName : String) (h : SameInput H st1 st2 workloadName) :
    (runAssembled H st1 workloadName).Perm (runAssembled H st2 workloadName) := by
  have hperm : (runContainers st1 workloadName).Perm (runContainers st2 workloadName) := h.2.2.2.2.1
  simp only [runAssembled, runSf_congr H st1 st2 workloadName h,
    containerCollapse_congr H st1 st2 workloadName h]
  exact hperm.map _

/-- The network services of two runs on the same input are both absent, or both
present and equal up to the order of their ports. -/
theorem runNetworkService_perm {T : Types} (H : Helpers T) (st1 st2 : State T)
    (workloadName : String) (h : SameInput H st1 st2 workloadName) :
    List.Forall₂ Service.sameUpToOrder (runNetworkService H st1 workloadName).toList
      (runNetworkService H st2 workloadName).toList := by
  have hp : SamePorts (runSpec st1 workloadName).Service (runSpec st2 workloadName).Service :=
    h.2.2.2.2.2.1
  unfold runNetworkService
  cases h1 : (runSpec st1 workloadName).Service with
  | none =>
    cases h2 : (runSpec st2 workloadName).Service with
    | none => simp
    | some s2 => simp [h1, h2, SamePorts] at hp
  | some s1 =>
    cases h2 : (runSpec st2 workloadName).Service with
    | none => simp [h1, h2, SamePorts] at hp
    | some s2 =>
      simp only [h1, h2, SamePorts] at hp
      have hlen := hp.length_eq
      by_cases hpos : s1.Ports.length > 0
      · have hpos2 : s2.Ports.length > 0 := by omega
        simp only [hpos, hpos2, if_true, Option.toList_some]
        refine List.Forall₂.cons ⟨rfl, rfl, rfl, rfl, rfl, rfl, ?_⟩ List.Forall₂.nil
        simp only [networkService, servicePortList_eq_map]
        exact hp.map _
      · have hpos2 : ¬ s2.Ports.length > 0 := by omega
        simp [hpos, hpos2]

theorem forall₂_append_of {α β : Type} {R : α → β → Prop} {a c : List α} {b d : List β}
    (h1 : List.Forall₂ R a b) (h2 : List.Forall₂ R c d) : List.Forall₂ R (a ++ c) (b ++ d) := by
  induction h1 with
  | nil => exact h2
  | cons hab _ ih => exact List.Forall₂.cons hab ih

theorem forall₂_service_manifests {T : Types} {l1 l2 : List Service}
    (h : List.Forall₂ Service.sameUpToOrder l1 l2) :
    List.Forall₂ Manifest.sameUpToOrder
      (l1.map (Manifest.service : Service → Manifest T))
      (l2.map (Manifest.service : Service → Manifest T)) := by
  induction h with
  | nil => exact List.Forall₂.nil
  | cons hab _ ih => exact List.Forall₂.cons hab ih

/-- In a returned manifest list the containers of the pod template follow the order
in which the run visits the container mapping, and the port entries of the network
service the order in which it visits the port mapping. -/
theorem order_follows_iteration {T : Types} (H : Helpers T) (state : State T)
    (workloadName : String) (ms : List (Manifest T))
    (h : (ConvertWorkload H state workloadName).manifests = some ms) :
    (∀ d, Manifest.deployment d ∈ ms →
      d.Template.Spec.Containers.map (fun c => c.Name) =
        (runContainers state workloadName).map Prod.fst) ∧
    (∀ ss, Manifest.statefulSet ss ∈ ms →
      ss.Template.Spec.Containers.map (fun c => c.Name) =
        (runContainers state workloadName).map Prod.fst) ∧
    (∀ svc service, Manifest.service svc ∈ ms → svc.Name = WorkloadServiceName workloadName →
      (runSpec state workloadName).Service = some service →
      svc.Ports.map (fun e => e.Name) = service.Ports.map Prod.fst) := by
  refine ⟨?_, ?_, ?_⟩
  · intro d hd
    rw [deployment_of_mem H state workloadName ms d h hd]
    exact runAssembled_names H state workloadName
  · intro ss hs
    rw [statefulSet_of_mem H state workloadName ms ss h hs]
    exact runAssembled_names H state workloadName
  · intro svc service hsvc hname hdecl
    obtain ⟨service', hs, -, hsvc'⟩ :=
      network_service_of_mem H state workloadName ms svc h hsvc hname
    rw [hdecl] at hs
    cases Option.some.inj hs
    rw [hsvc']
    simp only [networkService, servicePortList_eq_map, List.map_map]
    rfl

/-! ## The claims -/

/-- C1 (code defect). When the resource outputs resolve and the metadata carries the
workload-kind annotation with a value other than `Deployment` and `StatefulSet`,
`ConvertWorkload` returns at line 39 with `errors.Wrapf(err, ...)` where `err` is the
`nil` error left by line 26: it returns no manifests and the `nil` error, not the
unsupported-kind error the claim asks for. -/
theorem C1_unsupported_kind_returns_nil_error {T : Types} (H : Helpers T) (state : State T)
    (workloadName : String) (d : String)
    (hout : (H.GetResourceOutputForWorkload state workloadName).2 = none)
    (hd : kindAnnotation H state workloadName = some d)
    (h1 : d ≠ WorkloadKindDeployment) (h2 : d ≠ WorkloadKindStatefulSet) :
    ConvertWorkload H state workloadName = { manifests := none, err := none } := by
  have hsel := selectKind_unsupported H state workloadName none d hd h1 h2
  unfold runSpec at hsel
  simp only [ConvertWorkload, hout, ne_eq, not_true_eq_false, if_false, hsel, Wrapf_none]

/-- C1 at the workload `api` annotated with the kind `Job`. -/
theorem C1_unsupported_kind_witness :
    (demoHelpers.GetResourceOutputForWorkload (demoState (some "Job") [] none) "api").2 = none ∧
    kindAnnotation demoHelpers (demoState (some "Job") [] none) "api" = some "Job" ∧
    "Job" ≠ WorkloadKindDeployment ∧ "Job" ≠ WorkloadKindStatefulSet ∧
    ConvertWorkload demoHelpers (demoState (some "Job") [] none) "api" =
      { manifests := none, err := none } :=
  ⟨rfl, rfl, by decide, by decide,
    C1_unsupported_kind_returns_nil_error demoHelpers (demoState (some "Job") [] none) "api"
      "Job" rfl rfl (by decide) (by decide)⟩

/-- C2 (code defect). For a workload of the stateless kind all of whose helpers
succeed and one of whose volume mounts converts to a claim, `ConvertWorkload`
returns at line 89 with `errors.Wrapf(err, ...)` where `err` is the `nil` error
of the successful conversion: it returns no manifests and the `nil` error, not the
invalid-claim-context error the claim asks for. -/
theorem C2_stateless_claim_returns_nil_error {T : Types} (H : Helpers T) (state : State T)
    (workloadName : String) (hok : AllHelpersOk H state workloadName)
    (hk : IsStateless H state workloadName)
    (hclaim : ∃ nc ∈ runContainers state workloadName,
      ∃ r ∈ containerVolumeConversions H state workloadName (runSpec state workloadName)
        (runSf H state workloadName) nc.2, r.claim ≠ none ∧ r.err = none) :
    ConvertWorkload H state workloadName = { manifests := none, err := none } := by
  obtain ⟨hout, hcs⟩ := hok
  have hsel := selectKind_stateless H state workloadName none hk
  have hex : ∃ nc ∈ runContainers state workloadName,
      ¬ ContainerClaimFree H state workloadName (runSpec state workloadName)
        (runSf H state workloadName) nc := by
    obtain ⟨nc, hnc, r, hr, hrc, -⟩ := hclaim
    exact ⟨nc, hnc, fun hfree => hrc (hfree r hr)⟩
  have hloop := containersLoop_claim_slip H state workloadName (runSpec state workloadName)
    (runSf H state workloadName) WorkloadKindDeployment (by decide)
    (runContainers state workloadName) (loopInit T) hcs hex
  unfold runSf runContainers runSpec loopInit at hloop
  unfold runSpec at hsel
  simp only [ConvertWorkload, hout, ne_eq, not_true_eq_false, if_false, hsel, hloop]

/-- C2 at the workload `api` without annotation whose container `web` mounts one
volume that asks for a claim. -/
theorem C2_stateless_claim_witness :
    AllHelpersOk demoHelpers
      (demoState none [("web", demoContainer "app:1.0" [("/data", true)] [])] none) "api" ∧
    IsStateless demoHelpers
      (demoState none [("web", demoContainer "app:1.0" [("/data", true)] [])] none) "api" ∧
    ConvertWorkload demoHelpers
      (demoState none [("web", demoContainer "app:1.0" [("/data", true)] [])] none) "api" =
      { manifests := none, err := none } :=
  ⟨demo_allHelpersOk _ _ _, Or.inl rfl,
    C2_stateless_claim_returns_nil_error demoHelpers
      (demoState none [("web", demoContainer "app:1.0" [("/data", true)] [])] none) "api"
      (demo_allHelpersOk _ _ _) (Or.inl rfl)
      ⟨("web", demoContainer "app:1.0" [("/data", true)] []), List.mem_singleton.mpr rfl,
        { mount := "/data", vol := none, claim := some "claim-0", err := none },
        List.mem_singleton.mpr rfl, by simp, rfl⟩⟩

/-- C3. For a workload of the stateful kind all of whose helpers succeed,
`ConvertWorkload` returns a manifest list and the `nil` error; the list ends with
the only StatefulSet, whose `VolumeClaimTemplates` is the list of the claims that
the volume conversions produced: one per conversion that produced a claim,
container after container in loop order and in declaration order within a
container, and nothing for a conversion without claim. -/
theorem C3_stateful_claim_templates {T : Types} (H : Helpers T) (state : State T)
    (workloadName : String) (hok : AllHelpersOk H state workloadName)
    (hk : IsStateful H state workloadName) :
    ∃ (front : List (Manifest T)) (ss : StatefulSet T),
      ConvertWorkload H state workloadName =
        { manifests := some (front ++ [Manifest.statefulSet ss]), err := none } ∧
      (∀ s, Manifest.statefulSet s ∉ front) ∧
      ss.VolumeClaimTemplates =
        (runContainers state workloadName).flatMap (fun nc =>
          (containerVolumeConversions H state workloadName (runSpec state workloadName)
            (runSf H state workloadName) nc.2).filterMap (fun r => r.claim)) ∧
      ss.VolumeClaimTemplates.length =
        (((runContainers state workloadName).flatMap (fun nc =>
          containerVolumeConversions H state workloadName (runSpec state workloadName)
            (runSf H state workloadName) nc.2)).filter (fun r => r.claim.isSome)).length := by
  refine ⟨(runConfigs H state workloadName).map Manifest.config ++
      (runNetworkService H state workloadName).toList.map Manifest.service ++
      [Manifest.service (headlessService workloadName)],
    statefulSet workloadName (runAssembled H state workloadName)
      (runVolumes H state workloadName) (runClaims H state workloadName), ?_, ?_, rfl, ?_⟩
  · rw [ConvertWorkload_stateful_run H state workloadName hok hk]
    simp [statefulManifests]
  · intro s hs
    simp at hs
  · simp only [statefulSet, runClaims]
    induction runContainers state workloadName with
    | nil => simp
    | cons nc rest ih =>
      simp only [List.flatMap_cons, List.length_append, List.filter_append, ih,
        Nat.add_right_cancel_iff]
      induction containerVolumeConversions H state workloadName (runSpec state workloadName)
          (runSf H state workloadName) nc.2 with
      | nil => simp
      | cons r rs ih2 =>
        cases hc : r.claim <;> simp [List.filterMap_cons, List.filter_cons, hc, ih2]

/-- C3 at the workload `api` of kind `StatefulSet` whose container `web` mounts a
volume with a claim and a volume without. -/
theorem C3_stateful_claim_templates_witness :
    AllHelpersOk demoHelpers demoStatefulState "api" ∧
    IsStateful demoHelpers demoStatefulState "api" ∧
    ∃ (front : List (Manifest demoTypes)) (ss : StatefulSet demoTypes),
      ConvertWorkload demoHelpers demoStatefulState "api" =
        { manifests := some (front ++ [Manifest.statefulSet ss]), err := none } ∧
      (∀ s, Manifest.statefulSet s ∉ front) ∧
      ss.VolumeClaimTemplates =
        (runContainers demoStatefulState "api").flatMap (fun nc =>
          (containerVolumeConversions demoHelpers demoStatefulState "api"
            (runSpec demoStatefulState "api") (runSf demoHelpers demoStatefulState "api")
            nc.2).filterMap (fun r => r.claim)) ∧
      ss.VolumeClaimTemplates.length =
        (((runContainers demoStatefulState "api").flatMap (fun nc =>
          containerVolumeConversions demoHelpers demoStatefulState "api"
            (runSpec demoStatefulState "api") (runSf demoHelpers demoStatefulState "api")
            nc.2)).filter (fun r => r.claim.isSome)).length :=
  ⟨demo_allHelpersOk _ _ _, rfl,
    C3_stateful_claim_templates demoHelpers demoStatefulState "api"
      (demo_allHelpersOk _ _ _) rfl⟩

/-- C4 as stated fails: for the declared port `http` with published port 80 and
the explicit target port 4294967296, the run succeeds and the emitted entry has
target port 0, not the explicit target. -/
theorem C4_counterexample :
    ∃ (ms : List (Manifest demoTypes)) (svc : Service) (e : ServicePort),
      ConvertWorkload demoHelpers
        (demoState none [] (some (demoService 80 (some 4294967296)))) "api" =
        { manifests := some ms, err := none } ∧
      Manifest.service svc ∈ ms ∧ svc.Name = WorkloadServiceName "api" ∧
      svc.Ports = [e] ∧ e.Name = "http" ∧ e.Port = 80 ∧ e.TargetPort = 0 ∧
      e.TargetPort ≠ 4294967296 :=
  ⟨_, networkService demoHelpers "api" (demoService 80 (some 4294967296)),
    { Name := "http", Port := 80, TargetPort := 0, Protocol := "TCP" },
    rfl, by simp [appendNetworkService, appendController, demoState, State.workload, mapLookup,
      demoService], rfl, by decide, rfl, rfl, rfl, by decide⟩

/-- C4 (amended). In a run that returns a manifest list, the ports of the emitted
network service match the declared ports one by one in loop order, and for each:
the target port equals the emitted published port when no target port is given
or the given one is not greater than 0; otherwise it is the explicit target
converted to `int32`, hence the explicit target itself when that is at most
2147483647; the protocol is `TCP` when the protocol is absent or empty, and
otherwise the upper-cased declared protocol. -/
theorem C4_service_port_defaults {T : Types} (H : Helpers T) (state : State T)
    (workloadName : String) (ms : List (Manifest T)) (svc : Service) (service : WorkloadService)
    (h : (ConvertWorkload H state workloadName).manifests = some ms)
    (hsvc : Manifest.service svc ∈ ms) (hname : svc.Name = WorkloadServiceName workloadName)
    (hdecl : (runSpec state workloadName).Service = some service) :
    List.Forall₂ (fun (np : String × ScoreServicePort) (e : ServicePort) =>
      ((np.2.TargetPort = none ∨ ∃ t, np.2.TargetPort = some t ∧ t ≤ 0) →
        e.TargetPort = e.Port) ∧
      (∀ t, np.2.TargetPort = some t → 0 < t →
        e.TargetPort = toInt32 t ∧ (t ≤ 2147483647 → e.TargetPort = t)) ∧
      ((np.2.Protocol = none ∨ np.2.Protocol = some "") → e.Protocol = "TCP") ∧
      (∀ p, np.2.Protocol = some p → p ≠ "" → e.Protocol = H.ToUpper p))
      service.Ports svc.Ports := by
  obtain ⟨service', hs, -, hsvc'⟩ := network_service_of_mem H state workloadName ms svc h hsvc hname
  rw [hdecl] at hs
  cases Option.some.inj hs
  rw [hsvc']
  simp only [networkService, servicePortList_eq_map, List.forall₂_map_right_iff,
    List.forall₂_same]
  intro np _
  refine ⟨?_, ?_, ?_, ?_⟩
  · rintro (hn | ⟨t, ht, hle⟩)
    · simp [servicePort, hn]
    · have : ¬ t > 0 := by omega
      simp [servicePort, ht, this]
  · intro t ht hpos
    have e1 : (servicePort H np.1 np.2).TargetPort = toInt32 t := by
      simp [servicePort, ht, hpos]
    exact ⟨e1, fun hle => by rw [e1]; exact toInt32_of_range t (by omega) hle⟩
  · rintro (hn | hn) <;> simp [servicePort, hn]
  · intro p hp hne
    simp [servicePort, hp, hne]

/-- C4 (amended) at the workload `api` declaring the port `http` 8080 without
target port. -/
theorem C4_service_port_defaults_witness :
    (ConvertWorkload demoHelpers
      (demoState none [] (some (demoService 8080 none))) "api").manifests =
      some (statelessManifests demoHelpers
        (demoState none [] (some (demoService 8080 none))) "api") ∧
    Manifest.service (networkService demoHelpers "api" (demoService 8080 none)) ∈
      statelessManifests demoHelpers (demoState none [] (some (demoService 8080 none))) "api" ∧
    (networkService demoHelpers "api" (demoService 8080 none)).Name =
      WorkloadServiceName "api" ∧
    (runSpec (demoState none [] (some (demoService 8080 none))) "api").Service =
      some (demoService 8080 none) ∧
    List.Forall₂ (fun (np : String × ScoreServicePort) (e : ServicePort) =>
      ((np.2.TargetPort = none ∨ ∃ t, np.2.TargetPort = some t ∧ t ≤ 0) →
        e.TargetPort = e.Port) ∧
      (∀ t, np.2.TargetPort = some t → 0 < t →
        e.TargetPort = toInt32 t ∧ (t ≤ 2147483647 → e.TargetPort = t)) ∧
      ((np.2.Protocol = none ∨ np.2.Protocol = some "") → e.Protocol = "TCP") ∧
      (∀ p, np.2.Protocol = some p → p ≠ "" → e.Protocol = demoHelpers.ToUpper p))
      (demoService 8080 none).Ports
      (networkService demoHelpers "api" (demoService 8080 none)).Ports :=
  ⟨rfl, by simp [statelessManifests, runNetworkService, runSpec, demoState, State.workload,
      mapLookup, demoService], rfl, rfl,
    C4_service_port_defaults demoHelpers (demoState none [] (some (demoService 8080 none)))
      "api"
      (statelessManifests demoHelpers (demoState none [] (some (demoService 8080 none))) "api")
      (networkService demoHelpers "api" (demoService 8080 none)) (demoService 8080 none) rfl
      (by simp [statelessManifests, runNetworkService, runSpec, demoState, State.workload,
        mapLookup, demoService]) rfl rfl⟩

/-- C5. A returned manifest list consists of the config objects produced by the
files of the containers, then the network service if the run emits one, then the
headless service if the kind is stateful, then one controller object, which is
the last element. -/
theorem C5_manifest_order {T : Types} (H : Helpers T) (state : State T)
    (workloadName : String) (ms : List (Manifest T))
    (h : (ConvertWorkload H state workloadName).manifests = some ms) :
    ∃ (headless : List Service) (ctrl : Manifest T),
      ms = (runConfigs H state workloadName).map Manifest.config ++
        (runNetworkService H state workloadName).toList.map Manifest.service ++
        headless.map Manifest.service ++ [ctrl] ∧
      ctrl.isController = true ∧
      (IsStateful H state workloadName → headless = [headlessService workloadName]) ∧
      (IsStateless H state workloadName → headless = []) := by
  rcases ConvertWorkload_some_kind H state workloadName ms h with hk | hk
  · refine ⟨[headlessService workloadName],
      Manifest.statefulSet (statefulSet workloadName (runAssembled H state workloadName)
        (runVolumes H state workloadName) (runClaims H state workloadName)), ?_, rfl,
      fun _ => rfl, fun hl => absurd hl (stateful_not_stateless H state workloadName hk)⟩
    rw [ConvertWorkload_some_stateful H state workloadName ms hk h]
    simp [statefulManifests]
  · refine ⟨[],
      Manifest.deployment (deployment workloadName (runAssembled H state workloadName)
        (runVolumes H state workloadName)), ?_, rfl,
      fun hs => absurd hk (stateful_not_stateless H state workloadName hs), fun _ => rfl⟩
    rw [ConvertWorkload_some_stateless H state workloadName ms hk h]
    simp [statelessManifests]

/-- C5 at the workload `api` of kind `StatefulSet` with one file and one port. -/
theorem C5_manifest_order_witness :
    (ConvertWorkload demoHelpers demoStatefulState "api").manifests =
      some (statefulManifests demoHelpers demoStatefulState "api") ∧
    ∃ (headless : List Service) (ctrl : Manifest demoTypes),
      statefulManifests demoHelpers demoStatefulState "api" =
        (runConfigs demoHelpers demoStatefulState "api").map Manifest.config ++
        (runNetworkService demoHelpers demoStatefulState "api").toList.map Manifest.service ++
        headless.map Manifest.service ++ [ctrl] ∧
      ctrl.isController = true ∧
      (IsStateful demoHelpers demoStatefulState "api" →
        headless = [headlessService "api"]) ∧
      (IsStateless demoHelpers demoStatefulState "api" → headless = []) :=
  ⟨rfl, C5_manifest_order demoHelpers demoStatefulState "api"
    (statefulManifests demoHelpers demoStatefulState "api") rfl⟩

/-- C6 as stated fails: the same container mapping visited in two orders, and the
same port mapping visited in two orders, give two different results. -/
theorem C6_counterexample :
    List.Perm [("a", demoContainer "a:1" [] []), ("b", demoContainer "b:1" [] [])]
      [("b", demoContainer "b:1" [] []), ("a", demoContainer "a:1" [] [])] ∧
    ConvertWorkload demoHelpers (demoState none
      [("a", demoContainer "a:1" [] []), ("b", demoContainer "b:1" [] [])] none) "api" ≠
    ConvertWorkload demoHelpers (demoState none
      [("b", demoContainer "b:1" [] []), ("a", demoContainer "a:1" [] [])] none) "api" ∧
    List.Perm
      [("http", ({ Port := 80, Protocol := none, TargetPort := none } : ScoreServicePort)),
       ("grpc", { Port := 90, Protocol := none, TargetPort := none })]
      [("grpc", { Port := 90, Protocol := none, TargetPort := none }),
       ("http", { Port := 80, Protocol := none, TargetPort := none })] ∧
    ConvertWorkload demoHelpers (demoState none [] (some { Ports :=
      [("http", { Port := 80, Protocol := none, TargetPort := none }),
       ("grpc", { Port := 90, Protocol := none, TargetPort := none })] })) "api" ≠
    ConvertWorkload demoHelpers (demoState none [] (some { Ports :=
      [("grpc", { Port := 90, Protocol := none, TargetPort := none }),
       ("http", { Port := 80, Protocol := none, TargetPort := none })] })) "api" := by
  refine ⟨List.Perm.swap _ _ _, ?_, List.Perm.swap _ _ _, ?_⟩
  · intro heq
    have h2 := congrArg ConvertResult.containerNames heq
    revert h2
    decide
  · intro heq
    have h2 := congrArg ConvertResult.portNames heq
    revert h2
    decide

/-- C6 (amended). Two runs of `ConvertWorkload` on the same input, which may range
over the container mapping and over the port mapping in different orders, agree up
to those orders: when both visit the mappings in the same order their results are
identical; one returns a manifest list exactly when the other does; and two
returned lists consist of config objects that agree up to order, followed by
manifests that agree one by one up to the order of the port entries of a Service
and of the containers, volumes and claim templates of the controller object.  In
each run the containers of the pod template follow the order in which the run
visits the container mapping, and the port entries of the network service the
order in which it visits the port mapping. -/
theorem C6_deterministic_up_to_order {T : Types} (H : Helpers T) (st1 st2 : State T)
    (workloadName : String) (hsame : SameInput H st1 st2 workloadName) :
    ((runSpec st1 workloadName).Containers = (runSpec st2 workloadName).Containers →
      (runSpec st1 workloadName).Service = (runSpec st2 workloadName).Service →
      ConvertWorkload H st1 workloadName = ConvertWorkload H st2 workloadName) ∧
    ((∃ ms1, (ConvertWorkload H st1 workloadName).manifests = some ms1) ↔
      (∃ ms2, (ConvertWorkload H st2 workloadName).manifests = some ms2)) ∧
    (∀ ms1 ms2, (ConvertWorkload H st1 workloadName).manifests = some ms1 →
      (ConvertWorkload H st2 workloadName).manifests = some ms2 →
      ∃ (cfgs1 cfgs2 : List T.ConfigObject) (rest1 rest2 : List (Manifest T)),
        ms1 = cfgs1.map Manifest.config ++ rest1 ∧
        ms2 = cfgs2.map Manifest.config ++ rest2 ∧
        cfgs1.Perm cfgs2 ∧
        List.Forall₂ Manifest.sameUpToOrder rest1 rest2) ∧
    (∀ state ms, (state = st1 ∨ state = st2) →
      (ConvertWorkload H state workloadName).manifests = some ms →
      (∀ d, Manifest.deployment d ∈ ms →
        d.Template.Spec.Containers.map (fun c => c.Name) =
          (runContainers state workloadName).map Prod.fst) ∧
      (∀ ss, Manifest.statefulSet ss ∈ ms →
        ss.Template.Spec.Containers.map (fun c => c.Name) =
          (runContainers state workloadName).map Prod.fst) ∧
      (∀ svc service, Manifest.service svc ∈ ms →
        svc.Name = WorkloadServiceName workloadName →
        (runSpec state workloadName).Service = some service →
        svc.Ports.map (fun e => e.Name) = service.Ports.map Prod.fst)) := by
  refine ⟨?_, ?_, ?_, ?_⟩
  · intro hc hs
    obtain ⟨hR, hF, hM, hRes, -, -, hO⟩ := hsame
    refine ConvertWorkload_congr H st1 st2 workloadName hR ?_ hO
    unfold runSpec at hc hs hM hRes
    generalize st1.workload workloadName = w1 at hc hs hM hRes hF
    generalize st2.workload workloadName = w2 at hc hs hM hRes hF
    obtain ⟨⟨m1, c1, s1, r1⟩, f1⟩ := w1
    obtain ⟨⟨m2, c2, s2, r2⟩, f2⟩ := w2
    simp only at hc hs hM hRes hF
    subst hc hs hM hRes hF
    rfl
  · rw [manifests_some_iff, manifests_some_iff,
      AllHelpersOk_congr H st1 st2 workloadName hsame,
      RunClaimFree_congr H st1 st2 workloadName hsame]
    unfold IsStateful IsStateless
    rw [ kindAnnotation_congr H st1 st2 workloadName hsame]
  · intro ms1 ms2 h1 h2
    have hkind := kindAnnotation_congr H st1 st2 workloadName hsame
    have hnet : List.Forall₂ Manifest.sameUpToOrder
        ((runNetworkService H st1 workloadName).toList.map
          (Manifest.service : Service → Manifest T))
        ((runNetworkService H st2 workloadName).toList.map
          (Manifest.service : Service → Manifest T)) :=
      forall₂_service_manifests (runNetworkService_perm H st1 st2 workloadName hsame)
    rcases ConvertWorkload_some_kind H st1 workloadName ms1 h1 with hk | hk
    · have hk2 : IsStateful H st2 workloadName := by
        unfold IsStateful at hk ⊢
        rw [← hkind]
        exact hk
      refine ⟨runConfigs H st1 workloadName, runConfigs H st2 workloadName,
        (runNetworkService H st1 workloadName).toList.map Manifest.service ++
          [Manifest.service (headlessService workloadName),
           Manifest.statefulSet (statefulSet workloadName (runAssembled H st1 workloadName)
             (runVolumes H st1 workloadName) (runClaims H st1 workloadName))],
        (runNetworkService H st2 workloadName).toList.map Manifest.service ++
          [Manifest.service (headlessService workloadName),
           Manifest.statefulSet (statefulSet workloadName (runAssembled H st2 workloadName)
             (runVolumes H st2 workloadName) (runClaims H st2 workloadName))],
        ?_, ?_, runConfigs_perm H st1 st2 workloadName hsame, ?_⟩
      · rw [ConvertWorkload_some_stateful H st1 workloadName ms1 hk h1]
        simp [statefulManifests]
      · rw [ConvertWorkload_some_stateful H st2 workloadName ms2 hk2 h2]
        simp [statefulManifests]
      · refine forall₂_append_of hnet ?_
        refine List.Forall₂.cons ?_ (List.Forall₂.cons ?_ List.Forall₂.nil)
        · exact ⟨rfl, rfl, rfl, rfl, rfl, rfl, List.Perm.refl _⟩
        · exact ⟨rfl, rfl, rfl, rfl, rfl, rfl, rfl,
            ⟨rfl, runAssembled_perm H st1 st2 workloadName hsame,
              runVolumes_perm H st1 st2 workloadName hsame⟩,
            runClaims_perm H st1 st2 workloadName hsame⟩
    · have hk2 : IsStateless H st2 workloadName := by
        unfold IsStateless at hk ⊢
        rw [← hkind]
        exact hk
      refine ⟨runConfigs H st1 workloadName, runConfigs H st2 workloadName,
        (runNetworkService H st1 workloadName).toList.map Manifest.service ++
          [Manifest.deployment (deployment workloadName (runAssembled H st1 workloadName)
             (runVolumes H st1 workloadName))],
        (runNetworkService H st2 workloadName).toList.map Manifest.service ++
          [Manifest.deployment (deployment workloadName (runAssembled H st2 workloadName)
             (runVolumes H st2 workloadName))],
        ?_, ?_, runConfigs_perm H st1 st2 workloadName hsame, ?_⟩
      · rw [ConvertWorkload_some_stateless H st1 workloadName ms1 hk h1]
        simp [statelessManifests]
      · rw [ConvertWorkload_some_stateless H st2 workloadName ms2 hk2 h2]
        simp [statelessManifests]
      · refine forall₂_append_of hnet ?_
        refine List.Forall₂.cons ?_ List.Forall₂.nil
        exact ⟨rfl, rfl, rfl, rfl, rfl, rfl,
          ⟨rfl, runAssembled_perm H st1 st2 workloadName hsame,
            runVolumes_perm H st1 st2 workloadName hsame⟩⟩
  · intro state ms _ h
    exact order_follows_iteration H state workloadName ms h

/-- C6 (amended) at the workload `api` with the containers visited in the orders
`b`, `a` and `a`, `b`. -/
theorem C6_deterministic_up_to_order_witness :
    SameInput demoHelpers demoOrderState demoOrderStateSwapped "api" ∧
    ((runSpec demoOrderState "api").Containers = (runSpec demoOrderStateSwapped "api").Containers →
      (runSpec demoOrderState "api").Service = (runSpec demoOrderStateSwapped "api").Service →
      ConvertWorkload demoHelpers demoOrderState "api" =
        ConvertWorkload demoHelpers demoOrderStateSwapped "api") ∧
    ((∃ ms1, (ConvertWorkload demoHelpers demoOrderState "api").manifests = some ms1) ↔
      (∃ ms2, (ConvertWorkload demoHelpers demoOrderStateSwapped "api").manifests = some ms2)) ∧
    (∀ ms1 ms2, (ConvertWorkload demoHelpers demoOrderState "api").manifests = some ms1 →
      (ConvertWorkload demoHelpers demoOrderStateSwapped "api").manifests = some ms2 →
      ∃ (cfgs1 cfgs2 : List demoTypes.ConfigObject) (rest1 rest2 : List (Manifest demoTypes)),
        ms1 = cfgs1.map Manifest.config ++ rest1 ∧
        ms2 = cfgs2.map Manifest.config ++ rest2 ∧
        cfgs1.Perm cfgs2 ∧
        List.Forall₂ Manifest.sameUpToOrder rest1 rest2) ∧
    (∀ state ms, (state = demoOrderState ∨ state = demoOrderStateSwapped) →
      (ConvertWorkload demoHelpers state "api").manifests = some ms →
      (∀ d, Manifest.deployment d ∈ ms →
        d.Template.Spec.Containers.map (fun c => c.Name) =
          (runContainers state "api").map Prod.fst) ∧
      (∀ ss, Manifest.statefulSet ss ∈ ms →
        ss.Template.Spec.Containers.map (fun c => c.Name) =
          (runContainers state "api").map Prod.fst) ∧
      (∀ svc service, Manifest.service svc ∈ ms →
        svc.Name = WorkloadServiceName "api" →
        (runSpec state "api").Service = some service →
        svc.Ports.map (fun e => e.Name) = service.Ports.map Prod.fst)) :=
  ⟨⟨rfl, rfl, rfl, rfl, List.Perm.swap _ _ _, List.Perm.refl _, rfl⟩,
    C6_deterministic_up_to_order demoHelpers demoOrderState demoOrderStateSwapped "api"
      ⟨rfl, rfl, rfl, rfl, List.Perm.swap _ _ _, List.Perm.refl _, rfl⟩⟩

/-- C7 as stated fails: for the declared port `http` with the published port
number 4294967376 the run succeeds and the entry of the network service carries
the port number 80. -/
theorem C7_counterexample :
    ∃ (ms : List (Manifest demoTypes)) (svc : Service) (e : ServicePort),
      ConvertWorkload demoHelpers
        (demoState none [] (some (demoService 4294967376 none))) "api" =
        { manifests := some ms, err := none } ∧
      Manifest.service svc ∈ ms ∧ svc.Name = WorkloadServiceName "api" ∧
      svc.Ports = [e] ∧ e.Name = "http" ∧ e.Port = 80 ∧ e.Port ≠ 4294967376 :=
  ⟨_, networkService demoHelpers "api" (demoService 4294967376 none),
    { Name := "http", Port := 80, TargetPort := 80, Protocol := "TCP" },
    rfl, by simp [appendNetworkService, appendController, demoState, State.workload, mapLookup,
      demoService], rfl, by decide, rfl, rfl, by decide⟩

/-- C7 (amended). A returned manifest list contains a Service named
`WorkloadServiceName workloadName`, that is `workloadName ++ "-svc"`, exactly when
the workload declares a service with at least one port, and then exactly once.
Its selector is the single label `score-workload` with the workload name, and its
ports match the declared ports one by one in loop order, each carrying the name of
the declared port and its published port number converted to `int32`, hence the
number itself when it lies in the signed 32 bit range. -/
theorem C7_network_service {T : Types} (H : Helpers T) (state : State T)
    (workloadName : String) (ms : List (Manifest T))
    (h : (ConvertWorkload H state workloadName).manifests = some ms) :
    WorkloadServiceName workloadName = workloadName ++ "-svc" ∧
    ((∃ svc, Manifest.service svc ∈ ms ∧ svc.Name = WorkloadServiceName workloadName) ↔
      DeclaresPort state workloadName) ∧
    (DeclaresPort state workloadName →
      ms.countP (Manifest.isServiceNamed (WorkloadServiceName workloadName)) = 1) ∧
    (∀ svc, Manifest.service svc ∈ ms → svc.Name = WorkloadServiceName workloadName →
      svc.Selector = [("score-workload", workloadName)] ∧
      ∃ service, (runSpec state workloadName).Service = some service ∧
        List.Forall₂ (fun (np : String × ScoreServicePort) (e : ServicePort) =>
          e.Name = np.1 ∧ e.Port = toInt32 np.2.Port ∧
          (-2147483648 ≤ np.2.Port → np.2.Port ≤ 2147483647 → e.Port = np.2.Port))
          service.Ports svc.Ports) := by
  refine ⟨rfl, ⟨?_, ?_⟩, ?_, ?_⟩
  · rintro ⟨svc, hsvc, hname⟩
    obtain ⟨service, hs, hp, -⟩ :=
      network_service_of_mem H state workloadName ms svc h hsvc hname
    exact ⟨service, hs, hp⟩
  · rintro ⟨service, hs, hp⟩
    refine ⟨networkService H workloadName service, ?_, rfl⟩
    exact (mem_service_iff H state workloadName ms _ h).mpr
      (Or.inl (runNetworkService_declared H state workloadName service hs hp))
  · rintro ⟨service, hs, hp⟩
    rw [countP_network_service H state workloadName ms h,
      runNetworkService_declared H state workloadName service hs hp]
    rfl
  · intro svc hsvc hname
    obtain ⟨service, hs, -, hsvc'⟩ :=
      network_service_of_mem H state workloadName ms svc h hsvc hname
    refine ⟨by rw [hsvc']; rfl, service, hs, ?_⟩
    rw [hsvc']
    simp only [networkService, servicePortList_eq_map, List.forall₂_map_right_iff,
      List.forall₂_same]
    intro np _
    exact ⟨rfl, rfl, fun h1 h2 => toInt32_of_range _ h1 h2⟩

/-- C7 (amended) at the workload `api` declaring the port `http` 8080. -/
theorem C7_network_service_witness :
    (ConvertWorkload demoHelpers demoOrderState "api").manifests =
      some (statelessManifests demoHelpers demoOrderState "api") ∧
    WorkloadServiceName "api" = "api" ++ "-svc" ∧
    ((∃ svc, Manifest.service svc ∈ statelessManifests demoHelpers demoOrderState "api" ∧
        svc.Name = WorkloadServiceName "api") ↔
      DeclaresPort demoOrderState "api") ∧
    (DeclaresPort demoOrderState "api" →
      (statelessManifests demoHelpers demoOrderState "api").countP
        (Manifest.isServiceNamed (WorkloadServiceName "api")) = 1) ∧
    (∀ svc, Manifest.service svc ∈ statelessManifests demoHelpers demoOrderState "api" →
      svc.Name = WorkloadServiceName "api" →
      svc.Selector = [("score-workload", "api")] ∧
      ∃ service, (runSpec demoOrderState "api").Service = some service ∧
        List.Forall₂ (fun (np : String × ScoreServicePort) (e : ServicePort) =>
          e.Name = np.1 ∧ e.Port = toInt32 np.2.Port ∧
          (-2147483648 ≤ np.2.Port → np.2.Port ≤ 2147483647 → e.Port = np.2.Port))
          service.Ports svc.Ports) :=
  ⟨rfl, C7_network_service demoHelpers demoOrderState "api"
    (statelessManifests demoHelpers demoOrderState "api") rfl⟩

/-- C8. A returned manifest list of a workload of the stateful kind ends with the
headless Service followed by the controller object.  The headless Service is named
`workloadName ++ "-headless-svc"`, has the cluster IP `None`, the selector
`score-workload = workloadName` and the single port 99 with target port 99; the
controller object is a StatefulSet named `workloadName` with one replica whose
`ServiceName` is the name of the headless Service.  A returned manifest list of a
workload of the stateless kind holds no headless Service. -/
theorem C8_headless_service {T : Types} (H : Helpers T) (state : State T)
    (workloadName : String) (ms : List (Manifest T))
    (h : (ConvertWorkload H state workloadName).manifests = some ms) :
    (IsStateful H state workloadName →
      ∃ (front : List (Manifest T)) (hl : Service) (ss : StatefulSet T),
        ms = front ++ [Manifest.service hl, Manifest.statefulSet ss] ∧
        hl.Name = workloadName ++ "-headless-svc" ∧
        hl.ClusterIP = "None" ∧
        hl.Selector = [("score-workload", workloadName)] ∧
        (∃ p, hl.Ports = [p] ∧ p.Port = 99 ∧ p.TargetPort = 99) ∧
        ss.Name = workloadName ∧
        ss.Replicas = some 1 ∧
        ss.ServiceName = hl.Name) ∧
    (IsStateless H state workloadName →
      ∀ svc, Manifest.service svc ∈ ms →
        svc.ClusterIP ≠ "None" ∧ svc.Name ≠ workloadName ++ "-headless-svc") := by
  constructor
  · intro hk
    refine ⟨(runConfigs H state workloadName).map Manifest.config ++
        (runNetworkService H state workloadName).toList.map Manifest.service,
      headlessService workloadName,
      statefulSet workloadName (runAssembled H state workloadName)
        (runVolumes H state workloadName) (runClaims H state workloadName),
      ?_, rfl, rfl, rfl, ⟨_, rfl, rfl, rfl⟩, rfl, rfl, rfl⟩
    rw [ConvertWorkload_some_stateful H state workloadName ms hk h]
    simp [statefulManifests]
  · intro hk svc hsvc
    have hns : ¬ IsStateful H state workloadName :=
      fun hs => stateful_not_stateless H state workloadName hs hk
    rcases (mem_service_iff H state workloadName ms svc h).mp hsvc with hn | ⟨hs, -⟩
    · unfold runNetworkService at hn
      cases hsv : (runSpec state workloadName).Service with
      | none => simp [hsv] at hn
      | some service =>
        simp only [hsv] at hn
        by_cases hp : service.Ports.length > 0
        · simp only [hp, if_true, Option.some.injEq] at hn
          rw [← hn]
          exact ⟨by simp [networkService], serviceName_ne_headlessServiceName workloadName⟩
        · simp [hp] at hn
    · exact absurd hs hns

/-- C8 at the workload `api` of kind `StatefulSet`. -/
theorem C8_headless_service_witness :
    (ConvertWorkload demoHelpers demoStatefulState "api").manifests =
      some (statefulManifests demoHelpers demoStatefulState "api") ∧
    (IsStateful demoHelpers demoStatefulState "api" →
      ∃ (front : List (Manifest demoTypes)) (hl : Service) (ss : StatefulSet demoTypes),
        statefulManifests demoHelpers demoStatefulState "api" =
          front ++ [Manifest.service hl, Manifest.statefulSet ss] ∧
        hl.Name = "api" ++ "-headless-svc" ∧
        hl.ClusterIP = "None" ∧
        hl.Selector = [("score-workload", "api")] ∧
        (∃ p, hl.Ports = [p] ∧ p.Port = 99 ∧ p.TargetPort = 99) ∧
        ss.Name = "api" ∧
        ss.Replicas = some 1 ∧
        ss.ServiceName = hl.Name) ∧
    (IsStateless demoHelpers demoStatefulState "api" →
      ∀ svc, Manifest.service svc ∈ statefulManifests demoHelpers demoStatefulState "api" →
        svc.ClusterIP ≠ "None" ∧ svc.Name ≠ "api" ++ "-headless-svc") :=
  ⟨rfl, C8_headless_service demoHelpers demoStatefulState "api"
    (statefulManifests demoHelpers demoStatefulState "api") rfl⟩

/-- C9. A returned manifest list of a workload of the stateless kind (no
workload-kind annotation, or the annotation `Deployment`) ends with its only
controller object, a Deployment named `workloadName` with one replica, the label
selector `score-workload In [workloadName]` and a pod template whose containers
are the assembled containers and whose volumes are the pod-level volume list.
The StatefulSet of any run of the stateful kind for the same workload name with
the same assembled containers and pod-level volumes carries the same pod
template. -/
theorem C9_deployment {T : Types} (H : Helpers T) (state : State T)
    (workloadName : String) (ms : List (Manifest T))
    (hk : IsStateless H state workloadName)
    (h : (ConvertWorkload H state workloadName).manifests = some ms) :
    ∃ (front : List (Manifest T)) (d : Deployment T),
      ms = front ++ [Manifest.deployment d] ∧
      (∀ m ∈ front, m.isController = false) ∧
      d.Kind = "Deployment" ∧
      d.Name = workloadName ∧
      d.Replicas = some 1 ∧
      d.Selector = some { MatchExpressions :=
        [{ Key := "score-workload", Operator := "In", Values := [workloadName] }] } ∧
      d.Template.Spec.Containers = runAssembled H state workloadName ∧
      d.Template.Spec.Volumes = runVolumes H state workloadName ∧
      (∀ (H' : Helpers T) (state' : State T) (ms' : List (Manifest T)) (ss : StatefulSet T),
        IsStateful H' state' workloadName →
        (ConvertWorkload H' state' workloadName).manifests = some ms' →
        Manifest.statefulSet ss ∈ ms' →
        runAssembled H' state' workloadName = runAssembled H state workloadName →
        runVolumes H' state' workloadName = runVolumes H state workloadName →
        ss.Template = d.Template) := by
  refine ⟨(runConfigs H state workloadName).map Manifest.config ++
      (runNetworkService H state workloadName).toList.map Manifest.service,
    deployment workloadName (runAssembled H state workloadName)
      (runVolumes H state workloadName), ?_, ?_, rfl, rfl, rfl, rfl, rfl, rfl, ?_⟩
  · rw [ConvertWorkload_some_stateless H state workloadName ms hk h]
    simp [statelessManifests]
  · intro m hm
    rcases List.mem_append.mp hm with hm | hm
    · obtain ⟨c, -, rfl⟩ := List.mem_map.mp hm
      rfl
    · obtain ⟨c, -, rfl⟩ := List.mem_map.mp hm
      rfl
  · intro H' state' ms' ss _ h' hss ha hv
    rw [statefulSet_of_mem H' state' workloadName ms' ss h' hss]
    simp only [statefulSet, deployment, ha, hv]

/-- C9 at the workload `api` without annotation. -/
theorem C9_deployment_witness :
    IsStateless demoHelpers demoOrderState "api" ∧
    (ConvertWorkload demoHelpers demoOrderState "api").manifests =
      some (statelessManifests demoHelpers demoOrderState "api") ∧
    ∃ (front : List (Manifest demoTypes)) (d : Deployment demoTypes),
      statelessManifests demoHelpers demoOrderState "api" = front ++ [Manifest.deployment d] ∧
      (∀ m ∈ front, m.isController = false) ∧
      d.Kind = "Deployment" ∧
      d.Name = "api" ∧
      d.Replicas = some 1 ∧
      d.Selector = some { MatchExpressions :=
        [{ Key := "score-workload", Operator := "In", Values := ["api"] }] } ∧
      d.Template.Spec.Containers = runAssembled demoHelpers demoOrderState "api" ∧
      d.Template.Spec.Volumes = runVolumes demoHelpers demoOrderState "api" ∧
      (∀ (H' : Helpers demoTypes) (state' : State demoTypes)
        (ms' : List (Manifest demoTypes)) (ss : StatefulSet demoTypes),
        IsStateful H' state' "api" →
        (ConvertWorkload H' state' "api").manifests = some ms' →
        Manifest.statefulSet ss ∈ ms' →
        runAssembled H' state' "api" = runAssembled demoHelpers demoOrderState "api" →
        runVolumes H' state' "api" = runVolumes demoHelpers demoOrderState "api" →
        ss.Template = d.Template) :=
  ⟨Or.inl rfl, rfl, C9_deployment demoHelpers demoOrderState "api"
    (statelessManifests demoHelpers demoOrderState "api") (Or.inl rfl) rfl⟩

/-- C10. Whenever `ConvertWorkload` returns an error other than `nil`, the manifest
list it returns is `nil`, whatever had been collected before the failing step. -/
theorem C10_error_returns_no_manifests {T : Types} (H : Helpers T) (state : State T)
    (workloadName : String) (h : (ConvertWorkload H state workloadName).err ≠ none) :
    (ConvertWorkload H state workloadName).manifests = none := by
  cases hm : (ConvertWorkload H state workloadName).manifests with
  | none => rfl
  | some ms => exact absurd (ConvertWorkload_some_err H state workloadName ms hm) h

/-- C10 at the workload `api` whose container `web` has a first file that yields a
config object and a second file whose conversion fails. -/
theorem C10_error_witness :
    (ConvertWorkload demoHelpersStrict
      (demoState none [("web", demoContainer "app:1.0" [] ["/etc/ok", ""])] none) "api").err
      ≠ none ∧
    (ConvertWorkload demoHelpersStrict
      (demoState none [("web", demoContainer "app:1.0" [] ["/etc/ok", ""])] none)
      "api").manifests = none :=
  ⟨by decide, C10_error_returns_no_manifests demoHelpersStrict
    (demoState none [("web", demoContainer "app:1.0" [] ["/etc/ok", ""])] none) "api"
    (by decide)⟩

/-- C11. For every HTTP probe descriptor `buildProbe` returns an HTTP-GET action
whose path is the input path, whose host and scheme are the input ones when
present and the empty string when absent, and whose header list is the input
header list mapped entry by entry to (name, value) pairs: same length, same
order, nothing merged or dropped; the header list is `nil` exactly when the input
has no headers. -/
theorem C11_buildProbe_headers (input : HttpProbe) :
    ∃ a : HTTPGetAction,
      buildProbe input = { HTTPGet := some a } ∧
      a.Path = input.Path ∧
      a.Host = input.Host.getD "" ∧
      a.Scheme = input.Scheme.getD "" ∧
      a.HTTPHeaders.getD [] =
        input.HttpHeaders.map (fun h => ({ Name := h.Name, Value := h.Value } : HTTPHeader)) ∧
      (a.HTTPHeaders.getD []).length = input.HttpHeaders.length ∧
      (a.HTTPHeaders = none ↔ input.HttpHeaders = []) := by
  have hhost : DerefOr input.Host "" = input.Host.getD "" := by
    cases input.Host <;> rfl
  have hscheme : DerefOr input.Scheme "" = input.Scheme.getD "" := by
    cases input.Scheme <;> rfl
  cases hh : input.HttpHeaders with
  | nil =>
    refine ⟨{ Path := input.Path, Port := toInt32 input.Port, Host := DerefOr input.Host "",
              Scheme := DerefOr input.Scheme "", HTTPHeaders := none }, ?_, ?_⟩
    · simp only [buildProbe, hh, List.length_nil, gt_iff_lt, Nat.lt_irrefl, if_false]
    · simp [hhost, hscheme]
  | cons x rest =>
    refine ⟨{ Path := input.Path, Port := toInt32 input.Port, Host := DerefOr input.Host "",
              Scheme := DerefOr input.Scheme "",
              HTTPHeaders := some ((x :: rest).foldl
                (fun (h : List HTTPHeader) header =>
                  h ++ [{ Name := header.Name, Value := header.Value }]) []) }, ?_, ?_⟩
    · simp only [buildProbe, hh, List.length_cons, gt_iff_lt, Nat.zero_lt_succ, if_true]
    · have hfold := foldl_append_singleton
        (fun h : HttpProbeHttpHeadersElem => ({ Name := h.Name, Value := h.Value } : HTTPHeader))
        (x :: rest) []
      simp only [List.nil_append] at hfold
      simp only [hfold]
      simp [hhost, hscheme]

/-- C12 as stated fails: for the port 4294967376 the action returned by `buildProbe`
has the port 80. -/
theorem C12_counterexample :
    ∃ a : HTTPGetAction,
      buildProbe { Host := none, HttpHeaders := [], Path := "/healthz", Port := 4294967376,
                   Scheme := none } = { HTTPGet := some a } ∧
      a.Port = 80 ∧ a.Port ≠ 4294967376 :=
  ⟨_, rfl, by decide, by decide⟩

/-- C12 (amended). For every HTTP probe descriptor the port of the action returned
by `buildProbe` is the port of the descriptor converted to `int32`; it has the same
integer value as the port of the descriptor whenever that lies in the signed 32
bit range. -/
theorem C12_buildProbe_port (input : HttpProbe) :
    ∃ a : HTTPGetAction,
      buildProbe input = { HTTPGet := some a } ∧
      a.Port = toInt32 input.Port ∧
      (-2147483648 ≤ input.Port → input.Port ≤ 2147483647 → a.Port = input.Port) := by
  by_cases hh : input.HttpHeaders.length > 0
  · refine ⟨{ Path := input.Path, Port := toInt32 input.Port, Host := DerefOr input.Host "",
              Scheme := DerefOr input.Scheme "",
              HTTPHeaders := some (input.HttpHeaders.foldl
                (fun (h : List HTTPHeader) header =>
                  h ++ [{ Name := header.Name, Value := header.Value }]) []) },
      ?_, rfl, fun h1 h2 => toInt32_of_range _ h1 h2⟩
    simp only [buildProbe, hh, if_true]
  · refine ⟨{ Path := input.Path, Port := toInt32 input.Port, Host := DerefOr input.Host "",
              Scheme := DerefOr input.Scheme "", HTTPHeaders := none },
      ?_, rfl, fun h1 h2 => toInt32_of_range _ h1 h2⟩
    simp only [buildProbe, hh, if_false]

/-- C12 (amended) at the port 8080. -/
theorem C12_buildProbe_port_witness :
    ∃ a : HTTPGetAction,
      buildProbe { Host := none, HttpHeaders := [], Path := "/healthz", Port := 8080,
                   Scheme := none } = { HTTPGet := some a } ∧
      a.Port = toInt32 8080 ∧
      (-2147483648 ≤ (8080 : Int) → (8080 : Int) ≤ 2147483647 → a.Port = 8080) :=
  C12_buildProbe_port { Host := none, HttpHeaders := [], Path := "/healthz", Port := 8080,
                        Scheme := none }

/-- C13. In a returned manifest list the pod template of the controller object holds
one container per container of the workload, in loop order: same count, the name
of each equal to its key in the container mapping (so the names are pairwise
distinct, as the keys of a mapping are), with the image, the command and the
argument list of the workload container unchanged, and with a liveness
(readiness) probe exactly when the workload container declares one, equal to
`buildProbe` of its HTTP descriptor. -/
theorem C13_pod_containers {T : Types} (H : Helpers T) (state : State T)
    (workloadName : String) (ms : List (Manifest T))
    (h : (ConvertWorkload H state workloadName).manifests = some ms) :
    ∃ (front : List (Manifest T)) (ctrl : Manifest T) (tpl : PodTemplateSpec T),
      ms = front ++ [ctrl] ∧ ctrl.template = some tpl ∧
      tpl.Spec.Containers.length = (runContainers state workloadName).length ∧
      List.Forall₂ (fun (nc : String × ScoreContainer T) (c : Container T) =>
        c.Name = nc.1 ∧ c.Image = nc.2.Image ∧ c.Command = nc.2.Command ∧
        c.Args = nc.2.Args ∧
        c.LivenessProbe.isSome = nc.2.LivenessProbe.isSome ∧
        c.LivenessProbe =
          nc.2.LivenessProbe.map (fun p => { probeHandler := buildProbe p.HttpGet }) ∧
        c.ReadinessProbe.isSome = nc.2.ReadinessProbe.isSome ∧
        c.ReadinessProbe =
          nc.2.ReadinessProbe.map (fun p => { probeHandler := buildProbe p.HttpGet }))
        (runContainers state workloadName) tpl.Spec.Containers ∧
      (((runContainers state workloadName).map Prod.fst).Nodup →
        (tpl.Spec.Containers.map (fun c => c.Name)).Nodup) := by
  obtain ⟨front, ctrl, hms, -, -, htpl, -⟩ := controller_last H state workloadName ms h
  refine ⟨front, ctrl, _, hms, htpl, ?_, ?_, ?_⟩
  · simp [podTemplate, runAssembled]
  · simp only [podTemplate, runAssembled, List.forall₂_map_right_iff, List.forall₂_same]
    intro nc _
    refine ⟨rfl, rfl, rfl, rfl, ?_, ?_, ?_, ?_⟩
    · cases hl : nc.2.LivenessProbe <;> simp [assembledContainer, hl]
    · cases hl : nc.2.LivenessProbe <;> simp [assembledContainer, hl]
    · cases hl : nc.2.ReadinessProbe <;> simp [assembledContainer, hl]
    · cases hl : nc.2.ReadinessProbe <;> simp [assembledContainer, hl]
  · intro hnd
    have := runAssembled_names H state workloadName
    simp only [podTemplate]
    rw [this]
    exact hnd

/-- C13 at the workload `api` with the containers `b` and `a`. -/
theorem C13_pod_containers_witness :
    (ConvertWorkload demoHelpers demoOrderState "api").manifests =
      some (statelessManifests demoHelpers demoOrderState "api") ∧
    ∃ (front : List (Manifest demoTypes)) (ctrl : Manifest demoTypes)
      (tpl : PodTemplateSpec demoTypes),
      statelessManifests demoHelpers demoOrderState "api" = front ++ [ctrl] ∧
      ctrl.template = some tpl ∧
      tpl.Spec.Containers.length = (runContainers demoOrderState "api").length ∧
      List.Forall₂ (fun (nc : String × ScoreContainer demoTypes) (c : Container demoTypes) =>
        c.Name = nc.1 ∧ c.Image = nc.2.Image ∧ c.Command = nc.2.Command ∧
        c.Args = nc.2.Args ∧
        c.LivenessProbe.isSome = nc.2.LivenessProbe.isSome ∧
        c.LivenessProbe =
          nc.2.LivenessProbe.map (fun p => { probeHandler := buildProbe p.HttpGet }) ∧
        c.ReadinessProbe.isSome = nc.2.ReadinessProbe.isSome ∧
        c.ReadinessProbe =
          nc.2.ReadinessProbe.map (fun p => { probeHandler := buildProbe p.HttpGet }))
        (runContainers demoOrderState "api") tpl.Spec.Containers ∧
      (((runContainers demoOrderState "api").map Prod.fst).Nodup →
        (tpl.Spec.Containers.map (fun c => c.Name)).Nodup) :=
  ⟨rfl, C13_pod_containers demoHelpers demoOrderState "api"
    (statelessManifests demoHelpers demoOrderState "api") rfl⟩

/-- C14 (code defect). On the two returns that wrap a `nil` error, line 39 for an
unsupported workload kind and line 89 for a claim under the stateless kind,
`ConvertWorkload` returns the `nil` error together with the `nil` manifest list:
the list is empty and holds no controller object, against the claim. -/
theorem C14_nil_error_without_controller {T : Types} (H : Helpers T) (state : State T)
    (workloadName : String)
    (hslip :
      ((H.GetResourceOutputForWorkload state workloadName).2 = none ∧
        ∃ d, kindAnnotation H state workloadName = some d ∧
          d ≠ WorkloadKindDeployment ∧ d ≠ WorkloadKindStatefulSet) ∨
      (AllHelpersOk H state workloadName ∧ IsStateless H state workloadName ∧
        ¬ RunClaimFree H state workloadName)) :
    (ConvertWorkload H state workloadName).err = none ∧
    (ConvertWorkload H state workloadName).manifests = none ∧
    ¬ ∃ (front : List (Manifest T)) (ctrl : Manifest T),
      (ConvertWorkload H state workloadName).manifests = some (front ++ [ctrl]) := by
  have hres : ConvertWorkload H state workloadName = { manifests := none, err := none } := by
    rcases hslip with ⟨hout, d, hd, h1, h2⟩ | ⟨hok, hk, hclaim⟩
    · exact ConvertWorkload_unsupported_kind H state workloadName d hout hd h1 h2
    · exact ConvertWorkload_stateless_claim H state workloadName hok hk hclaim
  rw [hres]
  refine ⟨rfl, rfl, ?_⟩
  rintro ⟨front, ctrl, hm⟩
  cases hm

/-- C14 at the workload `api` annotated with the kind `CronJob`. -/
theorem C14_nil_error_witness :
    (((demoHelpers.GetResourceOutputForWorkload (demoState (some "CronJob") [] none) "api").2
        = none ∧
      ∃ d, kindAnnotation demoHelpers (demoState (some "CronJob") [] none) "api" = some d ∧
        d ≠ WorkloadKindDeployment ∧ d ≠ WorkloadKindStatefulSet) ∨
      (AllHelpersOk demoHelpers (demoState (some "CronJob") [] none) "api" ∧
        IsStateless demoHelpers (demoState (some "CronJob") [] none) "api" ∧
        ¬ RunClaimFree demoHelpers (demoState (some "CronJob") [] none) "api")) ∧
    (ConvertWorkload demoHelpers (demoState (some "CronJob") [] none) "api").err = none ∧
    (ConvertWorkload demoHelpers (demoState (some "CronJob") [] none) "api").manifests = none ∧
    ¬ ∃ (front : List (Manifest demoTypes)) (ctrl : Manifest demoTypes),
      (ConvertWorkload demoHelpers (demoState (some "CronJob") [] none) "api").manifests =
        some (front ++ [ctrl]) :=
  ⟨Or.inl ⟨rfl, "CronJob", rfl, by decide, by decide⟩,
    C14_nil_error_without_controller demoHelpers (demoState (some "CronJob") [] none) "api"
      (Or.inl ⟨rfl, "CronJob", rfl, by decide, by decide⟩)⟩

/-- C15. In a returned manifest list, for both kinds and every workload name, the
labels of the pod template of the controller object are the single label
`score-workload = workloadName`; they satisfy the label selector of the
controller object itself and the selector of every Service of the list, that is
of the network service and of the headless service when emitted. -/
theorem C15_labels_match_selectors {T : Types} (H : Helpers T) (state : State T)
    (workloadName : String) (ms : List (Manifest T))
    (h : (ConvertWorkload H state workloadName).manifests = some ms) :
    ∃ (front : List (Manifest T)) (ctrl : Manifest T) (tpl : PodTemplateSpec T)
      (sel : LabelSelector),
      ms = front ++ [ctrl] ∧ ctrl.template = some tpl ∧ ctrl.selector = some sel ∧
      tpl.Labels = [("score-workload", workloadName)] ∧
      labelSelectorMatches sel tpl.Labels = true ∧
      (∀ svc, Manifest.service svc ∈ ms → selectorMatches svc.Selector tpl.Labels = true) := by
  obtain ⟨front, ctrl, hms, -, -, htpl, hsel⟩ := controller_last H state workloadName ms h
  refine ⟨front, ctrl, _, _, hms, htpl, hsel, rfl, ?_, ?_⟩
  · simp [labelSelectorMatches, requirementMatches, workloadSelector, podTemplate, mapLookup,
      SelectorLabelWorkloadName]
  · intro svc hsvc
    rcases (mem_service_iff H state workloadName ms svc h).mp hsvc with hn | ⟨-, hh⟩
    · unfold runNetworkService at hn
      cases hs : (runSpec state workloadName).Service with
      | none => simp [hs] at hn
      | some service =>
        simp only [hs] at hn
        by_cases hp : service.Ports.length > 0
        · simp only [hp, if_true, Option.some.injEq] at hn
          rw [← hn]
          simp [selectorMatches, networkService, podTemplate, mapLookup]
        · simp [hp] at hn
    · rw [hh]
      simp [selectorMatches, headlessService, podTemplate, mapLookup]

/-- C15 at the workload `api` of kind `StatefulSet` with a network service. -/
theorem C15_labels_match_selectors_witness :
    (ConvertWorkload demoHelpers demoStatefulState "api").manifests =
      some (statefulManifests demoHelpers demoStatefulState "api") ∧
    ∃ (front : List (Manifest demoTypes)) (ctrl : Manifest demoTypes)
      (tpl : PodTemplateSpec demoTypes) (sel : LabelSelector),
      statefulManifests demoHelpers demoStatefulState "api" = front ++ [ctrl] ∧
      ctrl.template = some tpl ∧ ctrl.selector = some sel ∧
      tpl.Labels = [("score-workload", "api")] ∧
      labelSelectorMatches sel tpl.Labels = true ∧
      (∀ svc, Manifest.service svc ∈ statefulManifests demoHelpers demoStatefulState "api" →
        selectorMatches svc.Selector tpl.Labels = true) :=
  ⟨rfl, C15_labels_match_selectors demoHelpers demoStatefulState "api"
    (statefulManifests demoHelpers demoStatefulState "api") rfl⟩

/-- C16. With `convertContainerVolume`, `convertContainerFile` and
`collapseVolumeMounts` as given functions: whenever the two inner loops of a
container complete, the arguments of `collapseVolumeMounts` are the mounts of all
volume conversions followed by the mounts of all file conversions, and the volumes
of the volume conversions without claim followed by the volumes of the file
conversions, each in declaration order.  In a returned manifest list the
`VolumeMounts` of each container is the mount list returned by that call, and the
pod-level volume list is the concatenation, in loop order, of the volume lists
returned by the calls. -/
theorem C16_collapse_inputs {T : Types} (H : Helpers T) (state : State T)
    (workloadName : String) (ms : List (Manifest T))
    (h : (ConvertWorkload H state workloadName).manifests = some ms) :
    (∀ (kind containerName : String) (container : ScoreContainer T) (st : LoopState T)
      (acc acc2 : ContainerAcc T),
      volumesLoop H state.Resources kind containerName
        (volSubstitutionFunction H (runSpec state workloadName) workloadName
          (runSf H state workloadName)) 0 container.Volumes
        { manifests := st.manifests, volumeClaimTemplates := st.volumeClaimTemplates,
          containerVolumes := [], containerVolumeMounts := [] } = .ok acc →
      filesLoop H (state.workload workloadName).File
        (workloadName ++ "-" ++ containerName ++ "-") containerName
        (runSf H state workloadName) 0 container.Files acc = .ok acc2 →
      acc2.containerVolumeMounts =
        (containerVolumeConversions H state workloadName (runSpec state workloadName)
          (runSf H state workloadName) container).map (fun r => r.mount) ++
        (containerFileConversions H state workloadName (runSf H state workloadName)
          containerName container).map (fun r => r.mount) ∧
      acc2.containerVolumes =
        ((containerVolumeConversions H state workloadName (runSpec state workloadName)
          (runSf H state workloadName) container).filter
            (fun r => r.claim.isNone)).filterMap (fun r => r.vol) ++
        (containerFileConversions H state workloadName (runSf H state workloadName)
          containerName container).filterMap (fun r => r.vol)) ∧
    ∃ (front : List (Manifest T)) (ctrl : Manifest T) (tpl : PodTemplateSpec T),
      ms = front ++ [ctrl] ∧ ctrl.template = some tpl ∧
      List.Forall₂ (fun (nc : String × ScoreContainer T) (c : Container T) =>
        c.VolumeMounts =
          (H.collapseVolumeMounts
            (((containerVolumeConversions H state workloadName (runSpec state workloadName)
              (runSf H state workloadName) nc.2).filter
                (fun r => r.claim.isNone)).filterMap (fun r => r.vol) ++
              (containerFileConversions H state workloadName (runSf H state workloadName)
                nc.1 nc.2).filterMap (fun r => r.vol))
            ((containerVolumeConversions H state workloadName (runSpec state workloadName)
              (runSf H state workloadName) nc.2).map (fun r => r.mount) ++
              (containerFileConversions H state workloadName (runSf H state workloadName)
                nc.1 nc.2).map (fun r => r.mount))).mounts)
        (runContainers state workloadName) tpl.Spec.Containers ∧
      tpl.Spec.Volumes =
        (runContainers state workloadName).flatMap (fun nc =>
          (H.collapseVolumeMounts
            (((containerVolumeConversions H state workloadName (runSpec state workloadName)
              (runSf H state workloadName) nc.2).filter
                (fun r => r.claim.isNone)).filterMap (fun r => r.vol) ++
              (containerFileConversions H state workloadName (runSf H state workloadName)
                nc.1 nc.2).filterMap (fun r => r.vol))
            ((containerVolumeConversions H state workloadName (runSpec state workloadName)
              (runSf H state workloadName) nc.2).map (fun r => r.mount) ++
              (containerFileConversions H state workloadName (runSf H state workloadName)
                nc.1 nc.2).map (fun r => r.mount))).volumes) := by
  have hpod : ∀ l : List (VolumeConversion T),
      l.filterMap VolumeConversion.podVolume =
        (l.filter (fun r => r.claim.isNone)).filterMap (fun r => r.vol) := by
    intro l
    induction l with
    | nil => rfl
    | cons r rest ih =>
      cases hc : r.claim <;> cases hv : r.vol <;>
        simp [List.filterMap_cons, List.filter_cons, VolumeConversion.podVolume, hc, hv, ih]
  constructor
  · intro kind containerName container st acc acc2 hv hf
    obtain ⟨-, -, v3, v4, -, -⟩ := volumesLoop_ok H _ _ _ _ _ _ _ _ hv
    obtain ⟨-, -, f3, f4, -⟩ := filesLoop_ok H _ _ _ _ _ _ _ _ hf
    simp only [List.nil_append] at v3 v4
    refine ⟨?_, ?_⟩
    · rw [f4, v4]
      rfl
    · rw [f3, v3, hpod]
      rfl
  · obtain ⟨front, ctrl, hms, -, -, htpl, -⟩ := controller_last H state workloadName ms h
    refine ⟨front, ctrl, _, hms, htpl, ?_, ?_⟩
    · simp only [podTemplate, runAssembled, List.forall₂_map_right_iff, List.forall₂_same]
      intro nc _
      simp only [assembledContainer, containerCollapse, collapseCall, hpod]
    · simp only [podTemplate, runVolumes, containerCollapse, collapseCall, hpod]

/-- C16 at the workload `api` of kind `StatefulSet` whose container `web` mounts a
volume with a claim, a volume without and a file. -/
theorem C16_collapse_witness :
    (ConvertWorkload demoHelpers demoStatefulState "api").manifests =
      some (statefulManifests demoHelpers demoStatefulState "api") ∧
    ∃ (front : List (Manifest demoTypes)) (ctrl : Manifest demoTypes)
      (tpl : PodTemplateSpec demoTypes),
      statefulManifests demoHelpers demoStatefulState "api" = front ++ [ctrl] ∧
      ctrl.template = some tpl ∧
      tpl.Spec.Volumes = ["vol-1", "file-0"] ∧
      tpl.Spec.Containers.map (fun c => c.VolumeMounts) =
        [["/data", "/cache", "/etc/cfg/a.conf"]] := by
  refine ⟨rfl, ?_⟩
  obtain ⟨front, ctrl, tpl, hms, htpl, -, -⟩ :=
    (C16_collapse_inputs demoHelpers demoStatefulState "api"
      (statefulManifests demoHelpers demoStatefulState "api") rfl).2
  refine ⟨front, ctrl, tpl, hms, htpl, ?_⟩
  have hlast : (statefulManifests demoHelpers demoStatefulState "api").getLast? = some ctrl := by
    rw [hms]
    simp
  have hctrl : ctrl = Manifest.statefulSet (statefulSet "api"
      (runAssembled demoHelpers demoStatefulState "api")
      (runVolumes demoHelpers demoStatefulState "api")
      (runClaims demoHelpers demoStatefulState "api")) := by
    have h2 : (statefulManifests demoHelpers demoStatefulState "api").getLast? =
        some (Manifest.statefulSet (statefulSet "api"
          (runAssembled demoHelpers demoStatefulState "api")
          (runVolumes demoHelpers demoStatefulState "api")
          (runClaims demoHelpers demoStatefulState "api"))) := rfl
    rw [hlast] at h2
    exact Option.some.inj h2
  subst hctrl
  cases Option.some.inj htpl
  exact ⟨rfl, rfl⟩

end ScoreK8s
